import Mathlib

/-!
Verification development for the ArbitrageX task-orchestration engine
(`arbitagex/backend/agents.py`, `orchestration.py`, `main.py`,
`ai_components.py`).

The relational store is modelled as lists of rows (`Store`); a SQLAlchemy
session is a pair of stores (`Session`): `committed` is the durable state,
`pending` the in-memory view; `commit` publishes pending, `rollback`
discards it.  External collaborators (Tavily search, Playwright crawling,
the Gemini LLM, the Python `json` module) are an `Env` of function-valued
parameters.  Machine `datetime` values are abstract `Nat` ticks.  Python
`float` is modelled as `Rat` (the score arithmetic in the analysis agent
uses exact decimal constants).  Exceptions are `Except` values; a function
that cannot raise returns a plain value.
-/

namespace ArbitageX

/-- Python whitespace class used by `re` with the `\s` pattern and `str.strip`
    (space, tab, newline, carriage return, vertical tab, form feed). -/
def isPySpace (c : Char) : Bool :=
  c = ' ' || c = '\t' || c = '\n' || c = '\r' || c = Char.ofNat 11 || c = Char.ofNat 12

/-- Replace every maximal run of whitespace by a single space
    (`re.sub(r'\s+', ' ', s)`); `prevSpace` records whether the previous
    consumed character was part of a run already replaced. -/
def collapseRuns (prevSpace : Bool) : List Char → List Char
  | [] => []
  | c :: rest =>
    if isPySpace c then
      (if prevSpace then [] else [' ']) ++ collapseRuns true rest
    else c :: collapseRuns false rest

/-- `str.strip()` on a character list. -/
def stripChars (cs : List Char) : List Char :=
  ((cs.dropWhile isPySpace).reverse.dropWhile isPySpace).reverse

/-- `re.sub(r'\s+', ' ', s).strip()` as used by the crawler on page text. -/
def wsNormalize (s : String) : String :=
  String.mk (stripChars (collapseRuns false s.data))

/-- Python slicing `s[:n]` (character based). -/
def takeStr (s : String) (n : Nat) : String :=
  String.mk (s.data.take n)

/-- `str.strip()` on a `String`. -/
def stripStr (s : String) : String :=
  String.mk (stripChars s.data)

/-- `needle` is a prefix of the second list (character comparison). -/
def isPrefixList : List Char → List Char → Bool
  | [], _ => true
  | _ :: _, [] => false
  | a :: as, b :: bs => a = b && isPrefixList as bs

/-- Python `needle in hay` substring test on character lists. -/
def isInfixList (needle : List Char) : List Char → Bool
  | [] => needle.isEmpty
  | b :: bs => isPrefixList needle (b :: bs) || isInfixList needle bs

/-- Case-insensitive substring test, `a.lower() in b.lower()`. -/
def containsLower (needle hay : String) : Bool :=
  isInfixList needle.toLower.data hay.toLower.data

/-- Python truthiness of an optional integer (absent or `0` is falsy). -/
def truthyN : Option Nat → Bool
  | none => false
  | some n => n ≠ 0

/-- Python truthiness of an optional string (absent or `""` is falsy). -/
def truthyS : Option String → Bool
  | none => false
  | some s => s ≠ ""

/-- One metric in the LLM extraction schema (`ai_components.ExtractedMetric`);
    the `float` value is modelled as `Rat`. -/
structure ExtractedMetric where
  metric_type : Option String := none
  value : Option Rat := none
  unit : Option String := none
  period : Option String := none
  raw_mention : Option String := none
deriving DecidableEq

/-- One event in the LLM extraction schema (`ai_components.ExtractedEvent`). -/
structure ExtractedEvent where
  event_type : Option String := none
  details : Option String := none
  date : Option String := none
  raw_mention : Option String := none
deriving DecidableEq

/-- The LLM extraction payload (`ai_components.ExtractedData`); the default
    value has every field `None` / empty, exactly as `ExtractedData()`. -/
structure ExtractedData where
  company_name_mentioned : Option String := none
  summary : Option String := none
  metrics : List ExtractedMetric := []
  events : List ExtractedEvent := []
deriving DecidableEq

/-- `ExtractedData()` — the empty/default structured result. -/
def emptyExtractedData : ExtractedData := {}

/-- One element of a `links` task parameter
    (`{"url": ..., "description": ..., "link_type": ...}`); `none` models an
    absent key. -/
structure LinkData where
  url : Option String := none
  description : Option String := none
  link_type : Option String := none
deriving DecidableEq

/-- Per-company entry of the analysis result list built by
    `AnalysisAgent.analyze_companies`. -/
structure AnalysisEntry where
  company_id : Nat
  company_name : String
  score : Rat
  explanation : String
deriving DecidableEq

/-- Task result payloads (`AgentTask.result` JSON dicts), one constructor per
    dict shape produced by the agents. -/
inductive ResultVal where
  /-- `SearchAgent.web_search` summary. -/
  | searchSummary (results_stored_count : Nat) (search_query_id : Nat)
  /-- `WebCrawlerAgent.crawl_url_playwright` result dict. -/
  | crawlResult (status : String) (url : String) (title : String)
      (snippet : String) (content_length : Nat) (full_limited : String)
  /-- `{"status": "skipped", ...}` from `extract_information_llm`. -/
  | extractSkipped
  /-- Successful LLM extraction result. -/
  | extractSuccess (source_url : String) (data : ExtractedData)
  /-- `StorageAgent.store_extracted_data` success summary. -/
  | storeDataSummary (metrics_stored : Nat) (events_stored : Nat)
  /-- `{"status": "failed", "message": ...}` returned (not raised) by the
      storage agent when the company is missing. -/
  | storeFailed (message : String)
  /-- `store_company_overview` success. -/
  | storeOverviewOk
  /-- `store_company_links` success summary. -/
  | storeLinksOk (links_stored : Nat)
  /-- Placeholder vector-storage results. -/
  | storeVectorsOk (message : String)
  /-- Orchestration meta-task pointer to its child search task. -/
  | subTaskCreated (search_task_id : Nat)
  /-- `AnalysisAgent.analyze_companies` summary. -/
  | analysisSummary (strategy_id : Nat) (results : List AnalysisEntry)
  /-- Default success summary supplied by the dispatcher when the agent set
      no explicit result. -/
  | defaultSuccess (agent_type : String) (task_type : String)
deriving DecidableEq

/-- `result.get("status")`. -/
def ResultVal.statusGet : ResultVal → Option String
  | .searchSummary _ _ => some "success"
  | .crawlResult st _ _ _ _ _ => some st
  | .extractSkipped => some "skipped"
  | .extractSuccess _ _ => some "success"
  | .storeDataSummary _ _ => some "success"
  | .storeFailed _ => some "failed"
  | .storeOverviewOk => some "success"
  | .storeLinksOk _ => some "success"
  | .storeVectorsOk _ => some "success"
  | .subTaskCreated _ => some "sub_task_created"
  | .analysisSummary _ _ => some "success"
  | .defaultSuccess _ _ => some "success"

/-- `result.get("extracted_content_snippet")`. -/
def ResultVal.snippetGet : ResultVal → Option String
  | .crawlResult _ _ _ sn _ _ => some sn
  | _ => none

/-- `result.get("url")`. -/
def ResultVal.urlGet : ResultVal → Option String
  | .crawlResult _ u _ _ _ _ => some u
  | _ => none

/-- Task parameter dictionary; each field models one key read by some agent,
    `none` models an absent key. -/
structure Params where
  query : Option String := none
  target_entity : Option String := none
  max_results : Option Nat := none
  company_id : Option Nat := none
  company_name : Option String := none
  url : Option String := none
  search_result_id : Option Nat := none
  content : Option String := none
  full_content_limited : Option String := none
  source_url : Option String := none
  original_search_result_id : Option Nat := none
  extracted_data : Option ExtractedData := none
  overview : Option String := none
  links : Option (List LinkData) := none
  overwrite : Option Bool := none
  strategy_id : Option Nat := none
  filter_industry : Option String := none
  filter_location : Option String := none
deriving DecidableEq

/-- `models.AgentTask` row. -/
structure AgentTask where
  id : Nat
  agent_type : String
  task_type : String
  status : String := "pending"
  params : Params := {}
  result : Option ResultVal := none
  error : Option String := none
  created_at : Nat := 0
  started_at : Option Nat := none
  completed_at : Option Nat := none
deriving DecidableEq

/-- `models.SearchQuery` row. -/
structure SearchQuery where
  id : Nat
  query_text : String
  target_entity : Option String := none
  search_date : Nat := 0
  result_count : Nat := 0
deriving DecidableEq

/-- `models.SearchResult` row. -/
structure SearchResult where
  id : Nat
  query_id : Nat
  title : String := ""
  url : String := ""
  snippet : String := ""
  rank : Nat := 0
  is_processed : Bool := false
deriving DecidableEq

/-- `models.Company` row (core-relevant fields). -/
structure Company where
  id : Nat
  name : String := ""
  industry : Option String := none
  location : Option String := none
  description : Option String := none
deriving DecidableEq

/-- `models.FinancialMetric` row; `float` value as `Rat`. -/
structure FinancialMetric where
  company_id : Nat
  metric_type : String
  value : Rat
  unit : String := ""
  time_period : String := ""
  source : String := ""
deriving DecidableEq

/-- `models.CompanyEvent` row.  The `strptime`-based date parsing of
    `StorageAgent._parse_event_date` is abstracted: the date is kept as the
    raw optional string (no claim depends on date arithmetic). -/
structure CompanyEvent where
  company_id : Nat
  event_type : String
  description : String
  event_date : Option String := none
  source : String := ""
deriving DecidableEq

/-- `models.InvestmentStrategy` row. -/
structure InvestmentStrategy where
  id : Nat
  name : String := ""
deriving DecidableEq

/-- Per-criterion score breakdown written by the analysis agent. -/
structure ScoreBreakdown where
  industry_match : Rat
  revenue : Rat
  growth : Rat
deriving DecidableEq

/-- `models.AnalysisResult` row. -/
structure AnalysisResult where
  company_id : Nat
  strategy_id : Nat
  overall_score : Rat
  explanation : String
  score_breakdown : ScoreBreakdown
deriving DecidableEq

/-- `models.CompanySourceLink` row. -/
structure CompanySourceLink where
  company_id : Nat
  url : String
  description : Option String := none
  link_type : String := "other"
deriving DecidableEq

/-- The relational store: one list per table plus autoincrement counters. -/
structure Store where
  tasks : List AgentTask := []
  searchQueries : List SearchQuery := []
  searchResults : List SearchResult := []
  companies : List Company := []
  metrics : List FinancialMetric := []
  events : List CompanyEvent := []
  analysisResults : List AnalysisResult := []
  strategies : List InvestmentStrategy := []
  links : List CompanySourceLink := []
  nextTaskId : Nat := 1
  nextQueryId : Nat := 1
  nextResultId : Nat := 1
deriving DecidableEq

/-- One Tavily search hit (`{'title': ..., 'url': ..., 'content': ...}`);
    `none` models an absent key (`dict.get` default applies). -/
structure TavilyResult where
  title : Option String := none
  url : Option String := none
  content : Option String := none
deriving DecidableEq

/-- A crawled page as delivered by Playwright: `page.title()` and the body
    inner text. -/
structure CrawlPage where
  title : String
  bodyText : String
deriving DecidableEq

/-- External collaborators.  `tavilyResponse` returns the `results` list of
    the Tavily reply, `none` when the reply is falsy or lacks a `results`
    key.  `crawlPage` is Playwright navigation: `.error msg` is a navigation
    failure.  `llmComplete` maps the extraction input text to the raw LLM
    output (prompt assembly around the text is invariant and elided).
    `jsonParse` models `json.loads` followed by `ExtractedData(**parsed)`
    validation: `none` when either raises. -/
structure Env where
  tavilyApiKey : Bool := true
  tavilyResponse : String → Nat → Option (List TavilyResult) := fun _ _ => none
  crawlPage : String → Except String CrawlPage := fun _ => Except.error "net"
  llmConfigured : Bool := true
  llmComplete : String → String := fun _ => ""
  jsonParse : String → Option ExtractedData := fun _ => none

/-- A SQLAlchemy session: durable state plus the in-memory working view
    (queries read `pending`, commit publishes it, rollback discards it). -/
structure Session where
  committed : Store
  pending : Store
deriving DecidableEq

/-- `db.commit()`. -/
def Session.commitS (s : Session) : Session := ⟨s.pending, s.pending⟩

/-- `db.rollback()`. -/
def Session.rollbackS (s : Session) : Session := ⟨s.committed, s.committed⟩

/-- Apply an in-memory mutation (uncommitted until the next commit). -/
def Session.modifyP (s : Session) (f : Store → Store) : Session :=
  ⟨s.committed, f s.pending⟩

/-- `db.query(AgentTask).filter(AgentTask.id == i).first()`. -/
def findTask (db : Store) (i : Nat) : Option AgentTask :=
  db.tasks.find? (fun t => t.id = i)

/-- Mutate the task row with the given id (ORM attribute assignment). -/
def modifyTask (db : Store) (i : Nat) (f : AgentTask → AgentTask) : Store :=
  { db with tasks := db.tasks.map (fun t => if t.id = i then f t else t) }

/-- Insert a fresh task row (`models.AgentTask(...)`, `db.add`); returns the
    autoincrement-assigned id. -/
def addTaskRecord (db : Store) (agent_type task_type : String) (params : Params)
    (status : String) : Store × Nat :=
  let t : AgentTask := { id := db.nextTaskId, agent_type := agent_type,
                         task_type := task_type, status := status, params := params }
  ({ db with tasks := db.tasks ++ [t], nextTaskId := db.nextTaskId + 1 }, t.id)

/-- `db.query(SearchResult).filter(SearchResult.id == i).first()`. -/
def findSearchResult (db : Store) (i : Nat) : Option SearchResult :=
  db.searchResults.find? (fun r => r.id = i)

/-- Record a task result on the session object (`task.result = r`). -/
def setTaskResult (s : Session) (i : Nat) (r : ResultVal) : Session :=
  s.modifyP (fun db => modifyTask db i (fun t => { t with result := some r }))

/-- Record a task error on the session object (`task.error = e`). -/
def setTaskError (s : Session) (i : Nat) (e : String) : Session :=
  s.modifyP (fun db => modifyTask db i (fun t => { t with error := some e }))

/-- Set a task's status on the session object (`task.status = st`). -/
def setTaskStatus (s : Session) (i : Nat) (st : String) : Session :=
  s.modifyP (fun db => modifyTask db i (fun t => { t with status := st }))

/-- `WebCrawlerAgent.update_search_result_processed`: flip `is_processed` on
    the referenced search result and commit; a missing record is only logged
    (no write, no commit). -/
def update_search_result_processed (s : Session) (srid : Nat) (b : Bool) : Session :=
  match findSearchResult s.pending srid with
  | none => s
  | some _ =>
    (s.modifyP (fun db =>
      { db with searchResults :=
          db.searchResults.map (fun r => if r.id = srid then { r with is_processed := b } else r) })).commitS

/-- `db.query(SearchQuery).filter(query_text == q).order_by(search_date.desc()).first()`:
    the row with the greatest `search_date` whose text matches (first listed
    among ties). -/
def mostRecentQuery (db : Store) (q : String) : Option SearchQuery :=
  db.searchQueries.foldl
    (fun acc sq =>
      if sq.query_text = q then
        match acc with
        | none => some sq
        | some b => if b.search_date < sq.search_date then some sq else acc
      else acc)
    none

/-- Store one `SearchResult` row per Tavily hit (rank = enumerate index + 1),
    with the source's `[:511]` / `[:1023]` truncations and `dict.get`
    defaults. -/
def storeTavilyResults : Store → Nat → Nat → List TavilyResult → Store
  | db, _, _, [] => db
  | db, qid, rank0, r :: rest =>
    let sr : SearchResult :=
      { id := db.nextResultId, query_id := qid,
        title := takeStr (r.title.getD "No Title") 511,
        url := takeStr (r.url.getD "") 511,
        snippet := takeStr (r.content.getD "") 1023,
        rank := rank0 + 1, is_processed := false }
    storeTavilyResults
      { db with searchResults := db.searchResults ++ [sr],
                nextResultId := db.nextResultId + 1 }
      qid (rank0 + 1) rest

/-- `search_query_record.result_count = n`. -/
def setQueryResultCount (db : Store) (qid : Nat) (n : Nat) : Store :=
  { db with searchQueries :=
      db.searchQueries.map (fun sq => if sq.id = qid then { sq with result_count := n } else sq) }

/-- `SearchAgent.web_search`: validates the query and the API key, requires a
    pre-existing `SearchQuery` row, stores one `SearchResult` per Tavily hit
    and commits, and returns the summary dict.  `.error` is a raised
    `ValueError`. -/
def web_search (env : Env) (ses : Session) (params : Params) :
    Except String (Session × ResultVal) :=
  if ¬ truthyS params.query then Except.error "Search query is required"
  else
    let q := params.query.getD ""
    if env.tavilyApiKey = false then
      Except.error "Tavily API key not configured. Set TAVILY_API_KEY environment variable."
    else
      match mostRecentQuery ses.pending q with
      | none => Except.error ("SearchQuery record not found for query: \x27" ++ q ++ "\x27")
      | some sq =>
        let maxr := params.max_results.getD 5
        match env.tavilyResponse q maxr with
        | none => Except.ok (ses, ResultVal.searchSummary 0 sq.id)
        | some rs =>
          let db1 := storeTavilyResults ses.pending sq.id 0 rs
          let db2 := setQueryResultCount db1 sq.id rs.length
          Except.ok ((Session.commitS ⟨ses.committed, db2⟩),
                     ResultVal.searchSummary rs.length sq.id)

/-- `SearchAgent.process_task`: on success record the summary as the task
    result (status stays with the orchestrator); on failure note
    `task.error = "Search failed: ..."` on the session object and re-raise
    the original exception. -/
def searchAgent_process_task (env : Env) (ses : Session) (task : AgentTask) :
    Except (String × Session) Session :=
  if task.task_type = "web_search" then
    match web_search env ses task.params with
    | Except.ok (ses1, r) => Except.ok (setTaskResult ses1 task.id r)
    | Except.error e => Except.error (e, setTaskError ses task.id ("Search failed: " ++ e))
  else Except.error ("Unknown task type: " ++ task.task_type, ses)

/-- `WebCrawlerAgent.crawl_url_playwright`: requires a URL, navigates via the
    Playwright collaborator, collapses whitespace in the body text and builds
    the result dict with the 200-char snippet and 5000-char truncation; a
    navigation failure raises nested `ValueError`s. -/
def crawl_url_playwright (env : Env) (params : Params) : Except String ResultVal :=
  if ¬ truthyS params.url then Except.error "URL is required for crawling"
  else
    let url := params.url.getD ""
    match env.crawlPage url with
    | Except.error nav =>
      Except.error ("Playwright execution failed for " ++ url ++
                    ": Failed to navigate to URL " ++ url ++ ": " ++ nav)
    | Except.ok page =>
      let content := wsNormalize page.bodyText
      let n := content.data.length
      let snippet := if 200 < n then takeStr content 200 ++ "..." else content
      let limited := if 5000 < n then takeStr content 5000 ++ "... (truncated)" else content
      Except.ok (ResultVal.crawlResult "success" url page.title snippet n limited)

/-- `WebCrawlerAgent.process_task`: record the crawl result; on success or on
    failure alike, a task carrying `search_result_id` marks the originating
    search result processed (committing); failures are re-raised. -/
def webCrawler_process_task (env : Env) (ses : Session) (task : AgentTask) :
    Except (String × Session) Session :=
  if task.task_type = "crawl_url" then
    match crawl_url_playwright env task.params with
    | Except.ok r =>
      let ses1 := setTaskResult ses task.id r
      let ses2 :=
        if r.statusGet = some "success" ∧ truthyN task.params.search_result_id then
          update_search_result_processed ses1 (task.params.search_result_id.getD 0) true
        else ses1
      Except.ok ses2
    | Except.error e =>
      let ses1 := setTaskError ses task.id ("Crawl failed: " ++ e)
      let ses2 :=
        if truthyN task.params.search_result_id then
          update_search_result_processed ses1 (task.params.search_result_id.getD 0) true
        else ses1
      Except.error (e, ses2)
  else Except.error ("Unknown task type: " ++ task.task_type, ses)

/-- The three-backtick fence marker. -/
def fenceMarker : List Char := [Char.ofNat 96, Char.ofNat 96, Char.ofNat 96]

/-- Opening brace character. -/
def lbrace : Char := Char.ofNat 123

/-- Closing brace character. -/
def rbrace : Char := Char.ofNat 125

/-- Case-insensitive `json` tag test for the `(?:json)?` group. -/
def startsWithJsonCI : List Char → Bool
  | a :: b :: c :: d :: _ =>
    a.toLower = 'j' && b.toLower = 's' && c.toLower = 'o' && d.toLower = 'n'
  | _ => false

/-- After the closing brace, `\s*` then the closing fence must follow. -/
def fenceAfterClose (cs : List Char) : Bool :=
  isPrefixList fenceMarker (cs.dropWhile isPySpace)

/-- Lazy `.*?` body search: the shortest body whose closing brace is followed
    by `\s*` and the closing fence; `acc` holds the body read so far,
    reversed. -/
def findFenceBody (acc : List Char) : List Char → Option (List Char)
  | [] => none
  | c :: rest =>
    if c = rbrace ∧ fenceAfterClose rest then some acc.reverse
    else findFenceBody (c :: acc) rest

/-- Try to match ````(?:json)?\s*(\{.*?\})\s*```` ` at this position,
    returning the braced group. -/
def matchFenceAt (cs : List Char) : Option (List Char) :=
  if isPrefixList fenceMarker cs then
    let r1 := cs.drop 3
    let r2 := if startsWithJsonCI r1 then r1.drop 4 else r1
    let r3 := r2.dropWhile isPySpace
    match r3 with
    | [] => none
    | c :: rest =>
      if c = lbrace then
        match findFenceBody [] rest with
        | some body => some (lbrace :: (body ++ [rbrace]))
        | none => none
      else none
  else none

/-- `re.search` over the raw output: leftmost match of the fence pattern. -/
def searchFence : List Char → Option (List Char)
  | [] => none
  | c :: rest =>
    match matchFenceAt (c :: rest) with
    | some g => some g
    | none => searchFence rest

/-- The literal, case-sensitive `json` tag tested by `startswith`. -/
def jsonTagCS : List Char := ['j', 's', 'o', 'n']

/-- Fence stripping of `extract_structured_data_with_llm`: the fenced JSON
    group when the markdown pattern matches, otherwise the stripped raw
    output with a leading `json` tag removed. -/
def stripFence (raw : String) : String :=
  match searchFence raw.data with
  | some g => String.mk (stripChars g)
  | none =>
    let s := stripChars raw.data
    if isPrefixList jsonTagCS s then String.mk (stripChars (s.drop 4))
    else String.mk s

/-- `InformationExtractor.extract_structured_data_with_llm` given the raw LLM
    output: without a configured LLM or with empty input text the default
    `ExtractedData()` is returned; otherwise the fenced/stripped output is
    parsed and validated (`parse`), with every parse or validation failure
    recovered as the default value.  The function is total: no input makes it
    raise. -/
def extract_structured_data_with_llm (parse : String → Option ExtractedData)
    (llmConfigured : Bool) (text : String) (raw : String) : ExtractedData :=
  if llmConfigured = false then emptyExtractedData
  else if text = "" then emptyExtractedData
  else
    match parse (stripFence raw) with
    | some d => d
    | none => emptyExtractedData

/-- `InformationExtractionAgent.extract_information_llm`: content falls back
    from `content` to `full_content_limited`; no content yields the skipped
    result; otherwise the LLM output for the content is parsed into the
    success payload. -/
def extract_information_llm (env : Env) (params : Params) : ResultVal :=
  let c1 := params.content.getD ""
  let c := if c1 = "" then params.full_content_limited.getD "" else c1
  if c = "" then ResultVal.extractSkipped
  else
    ResultVal.extractSuccess (params.source_url.getD "Unknown")
      (extract_structured_data_with_llm env.jsonParse env.llmConfigured c (env.llmComplete c))

/-- `InformationExtractionAgent.process_task`. -/
def infoExtraction_process_task (env : Env) (ses : Session) (task : AgentTask) :
    Except (String × Session) Session :=
  if task.task_type = "extract_from_content" then
    Except.ok (setTaskResult ses task.id (extract_information_llm env task.params))
  else Except.error ("Unknown task type for InformationExtractionAgent: " ++ task.task_type, ses)

/-- Metric rows built by `store_extracted_data`.  The source slices
    `metric_data.get("unit", "unknown")[:20]` (same for `period`); the
    extraction pipeline always supplies these keys (possibly as JSON null),
    and slicing a null raises `TypeError` — `none` models that null. -/
def buildMetricRows (cid : Nat) (src : String) :
    List ExtractedMetric → Except String (List FinancialMetric)
  | [] => Except.ok []
  | m :: rest =>
    if truthyS m.metric_type ∧ m.value.isSome then
      match m.unit with
      | none => Except.error "\x27NoneType\x27 object is not subscriptable"
      | some u =>
        match m.period with
        | none => Except.error "\x27NoneType\x27 object is not subscriptable"
        | some p =>
          match buildMetricRows cid src rest with
          | Except.error e => Except.error e
          | Except.ok ms =>
            Except.ok ({ company_id := cid,
                         metric_type := takeStr (m.metric_type.getD "unknown") 50,
                         value := m.value.getD 0,
                         unit := takeStr u 20,
                         time_period := takeStr p 50,
                         source := "LLM Extraction from " ++ src } :: ms)
    else buildMetricRows cid src rest

/-- Event rows built by `store_extracted_data` (`event_type` and `details`
    must be truthy). -/
def buildEventRows (cid : Nat) (src : String) : List ExtractedEvent → List CompanyEvent
  | [] => []
  | e :: rest =>
    if truthyS e.event_type ∧ truthyS e.details then
      { company_id := cid,
        event_type := takeStr (e.event_type.getD "unknown") 50,
        description := takeStr (e.details.getD "") 1023,
        event_date := (match e.date with
                       | none => none
                       | some d => if d = "" then none else some d),
        source := "LLM Extraction from " ++ src } :: buildEventRows cid src rest
    else buildEventRows cid src rest

/-- `StorageAgent.store_extracted_data`: requires `company_id` and a non-empty
    `extracted_data` dict; a missing company yields a failed result dict (not
    a raise); otherwise the metric and event rows are added and committed. -/
def store_extracted_data (ses : Session) (params : Params) :
    Except String (Session × ResultVal) :=
  if ¬ truthyN params.company_id ∨ params.extracted_data.isNone then
    Except.error "company_id and extracted_data are required for storage."
  else
    let cid := params.company_id.getD 0
    let ed := params.extracted_data.getD {}
    let src := params.source_url.getD "Unknown Source"
    match ses.pending.companies.find? (fun c => c.id = cid) with
    | none => Except.ok (ses, ResultVal.storeFailed
        ("Company ID " ++ toString cid ++ " not found."))
    | some _ =>
      match buildMetricRows cid src ed.metrics with
      | Except.error e => Except.error e
      | Except.ok ms =>
        let es := buildEventRows cid src ed.events
        let db1 := { ses.pending with metrics := ses.pending.metrics ++ ms,
                                      events := ses.pending.events ++ es }
        Except.ok (Session.commitS ⟨ses.committed, db1⟩,
                   ResultVal.storeDataSummary ms.length es.length)

/-- `StorageAgent.store_company_overview`: requires `company_id` and a
    non-null `overview` (empty string allowed); updates the description and
    commits. -/
def store_company_overview (ses : Session) (params : Params) :
    Except String (Session × ResultVal) :=
  if ¬ truthyN params.company_id ∨ params.overview.isNone then
    Except.error "company_id and overview are required."
  else
    let cid := params.company_id.getD 0
    match ses.pending.companies.find? (fun c => c.id = cid) with
    | none => Except.ok (ses, ResultVal.storeFailed
        ("Company ID " ++ toString cid ++ " not found."))
    | some _ =>
      let db1 :=
        { ses.pending with
          companies := ses.pending.companies.map (fun c =>
            if c.id = cid then { c with description := params.overview } else c) }
      Except.ok (Session.commitS ⟨ses.committed, db1⟩, ResultVal.storeOverviewOk)

/-- Link rows built by `store_company_links`: one row per submitted link with
    a truthy `url`, with the source's truncations and `dict.get` defaults
    (`none` models an absent key). -/
def buildLinkRows (cid : Nat) : List LinkData → List CompanySourceLink
  | [] => []
  | l :: rest =>
    if truthyS l.url then
      { company_id := cid,
        url := takeStr (l.url.getD "") 1023,
        description := l.description,
        link_type := takeStr (l.link_type.getD "other") 50 } :: buildLinkRows cid rest
    else buildLinkRows cid rest

/-- `StorageAgent.store_company_links`: requires `company_id` and a list under
    `links`; with `overwrite` truthy the company's existing links are deleted
    first; then one row per truthy-url link is added and committed. -/
def store_company_links (ses : Session) (params : Params) :
    Except String (Session × ResultVal) :=
  if ¬ truthyN params.company_id ∨ params.links.isNone then
    Except.error "company_id and a list of links are required."
  else
    let cid := params.company_id.getD 0
    let lks := params.links.getD []
    match ses.pending.companies.find? (fun c => c.id = cid) with
    | none => Except.ok (ses, ResultVal.storeFailed
        ("Company ID " ++ toString cid ++ " not found."))
    | some _ =>
      let base :=
        if params.overwrite.getD false then
          { ses.pending with links := ses.pending.links.filter (fun l => ¬ l.company_id = cid) }
        else ses.pending
      let rows := buildLinkRows cid lks
      let db1 := { base with links := base.links ++ rows }
      Except.ok (Session.commitS ⟨ses.committed, db1⟩, ResultVal.storeLinksOk rows.length)

/-- `StorageAgent.process_task`: dispatch on `task_type`, record the returned
    summary as the task result. -/
def storageAgent_process_task (ses : Session) (task : AgentTask) :
    Except (String × Session) Session :=
  if task.task_type = "store_extracted_data" then
    match store_extracted_data ses task.params with
    | Except.ok (s1, r) => Except.ok (setTaskResult s1 task.id r)
    | Except.error e => Except.error (e, ses)
  else if task.task_type = "store_company_overview" then
    match store_company_overview ses task.params with
    | Except.ok (s1, r) => Except.ok (setTaskResult s1 task.id r)
    | Except.error e => Except.error (e, ses)
  else if task.task_type = "store_company_links" then
    match store_company_links ses task.params with
    | Except.ok (s1, r) => Except.ok (setTaskResult s1 task.id r)
    | Except.error e => Except.error (e, ses)
  else if task.task_type = "store_document_vectors" then
    Except.ok (setTaskResult ses task.id
      (ResultVal.storeVectorsOk "Document vectors processed (placeholder)."))
  else if task.task_type = "store_company_vectors" then
    Except.ok (setTaskResult ses task.id
      (ResultVal.storeVectorsOk "Company vectors processed (placeholder)."))
  else Except.error ("Unknown task type for StorageAgent: " ++ task.task_type, ses)

/-- The band suffix chosen by the analysis agent from the overall score; the
    `f"{score:.2f}"` float formatting of the prefix is abstracted away. -/
def scoreExplanation (score : Rat) : String :=
  let base := "Company scored based on industry match, revenue, and growth metrics."
  if (6 : Rat) / 10 < score then
    base ++ " This company is a strong match for the investment strategy."
  else if (3 : Rat) / 10 < score then
    base ++ " This company is a moderate match for the investment strategy."
  else
    base ++ " This company is a weak match for the investment strategy."

/-- Per-company scoring of `AnalysisAgent.analyze_companies` (industry match
    3/10; revenue thresholds 50M/10M for 3/10, 2/10 else 1/10; growth
    thresholds 30/15 for 4/10, 3/10 else 1/10). -/
def scoreCompany (db : Store) (strat : InvestmentStrategy) (c : Company) :
    AnalysisEntry × ScoreBreakdown :=
  let ms := db.metrics.filter (fun m => m.company_id = c.id)
  let indScore : Rat :=
    if truthyS c.industry ∧ strat.name ≠ "" ∧
       containsLower (c.industry.getD "") strat.name then (3 : Rat) / 10 else 0
  let revScore : Rat :=
    match ms.find? (fun m => m.metric_type = "revenue") with
    | none => 0
    | some m =>
      if (50000000 : Rat) < m.value then (3 : Rat) / 10
      else if (10000000 : Rat) < m.value then (2 : Rat) / 10
      else (1 : Rat) / 10
  let gScore : Rat :=
    match ms.find? (fun m => m.metric_type = "growth_rate") with
    | none => 0
    | some m =>
      if (30 : Rat) < m.value then (4 : Rat) / 10
      else if (15 : Rat) < m.value then (3 : Rat) / 10
      else (1 : Rat) / 10
  let score := indScore + revScore + gScore
  (⟨c.id, c.name, score, scoreExplanation score⟩, ⟨indScore, revScore, gScore⟩)

/-- `AnalysisAgent.analyze_companies`: requires a strategy id and an existing
    strategy; filters companies by exact industry and case-insensitive
    location substring, scores each, persists one `AnalysisResult` per
    company and commits. -/
def analyze_companies (ses : Session) (params : Params) :
    Except String (Session × ResultVal) :=
  if ¬ truthyN params.strategy_id then Except.error "Strategy ID is required"
  else
    let sid := params.strategy_id.getD 0
    match ses.pending.strategies.find? (fun s => s.id = sid) with
    | none => Except.error ("Strategy not found: " ++ toString sid)
    | some strat =>
      let cs0 := ses.pending.companies
      let cs1 :=
        match params.filter_industry with
        | none => cs0
        | some ind => if ind = "" then cs0 else cs0.filter (fun c => c.industry = some ind)
      let cs2 :=
        match params.filter_location with
        | none => cs1
        | some loc =>
          if loc = "" then cs1
          else cs1.filter (fun c =>
            match c.location with
            | none => false
            | some s => containsLower loc s)
      let scored := cs2.map (scoreCompany ses.pending strat)
      let rows := scored.map (fun e =>
        ({ company_id := e.1.company_id, strategy_id := sid,
           overall_score := e.1.score, explanation := e.1.explanation,
           score_breakdown := e.2 } : AnalysisResult))
      let db1 := { ses.pending with analysisResults := ses.pending.analysisResults ++ rows }
      Except.ok (Session.commitS ⟨ses.committed, db1⟩,
                 ResultVal.analysisSummary sid (scored.map (fun e => e.1)))

/-- `AnalysisAgent.process_task`. -/
def analysisAgent_process_task (ses : Session) (task : AgentTask) :
    Except (String × Session) Session :=
  if task.task_type = "company_analysis" then
    match analyze_companies ses task.params with
    | Except.ok (s1, r) => Except.ok (setTaskResult s1 task.id r)
    | Except.error e => Except.error (e, ses)
  else Except.error ("Unknown task type: " ++ task.task_type, ses)

/-- `DataIngestionAgent.process_task`: the CSV/strategy handlers only log (the
    returned dicts are discarded by the caller). -/
def dataIngestion_process_task (ses : Session) (task : AgentTask) :
    Except (String × Session) Session :=
  if task.task_type = "process_csv" then Except.ok ses
  else if task.task_type = "process_strategy" then Except.ok ses
  else Except.error ("Unknown task type: " ++ task.task_type, ses)

/-- Insert a `SearchQuery(query_text=name, target_entity=name)` row. -/
def addSearchQuery (db : Store) (name : String) : Store :=
  { db with
    searchQueries := db.searchQueries ++
      [{ id := db.nextQueryId, query_text := name, target_entity := some name }],
    nextQueryId := db.nextQueryId + 1 }

/-- `OrchestratorAgent.create_task`: insert a pending task record and commit;
    returns the new id. -/
def create_task (ses : Session) (agent_type task_type : String) (params : Params) :
    Session × Nat :=
  let p := addTaskRecord ses.pending agent_type task_type params "pending"
  (Session.commitS ⟨ses.committed, p.1⟩, p.2)

/-- `OrchestratorAgent.handle_generate_full_profile`: requires truthy
    `company_id` and `company_name` (noting the error on the session object
    before raising); ensures a `SearchQuery` row exists, creates exactly one
    child search task via `create_task` (which commits), records the child id
    in the master result while keeping the master `running`, and commits. -/
def handle_generate_full_profile (ses : Session) (task : AgentTask) :
    Except (String × Session) Session :=
  if ¬ truthyN task.params.company_id ∨ ¬ truthyS task.params.company_name then
    Except.error ("Missing company_id or company_name for profile generation.",
      setTaskError ses task.id "Missing company_id or company_name in master task params.")
  else
    let name := task.params.company_name.getD ""
    let ses1 :=
      if (ses.pending.searchQueries.find? (fun sq => sq.query_text = name)).isSome then ses
      else ses.modifyP (fun db => addSearchQuery db name)
    let searchParams : Params :=
      { query := some name, target_entity := some name, max_results := some 5 }
    let created := create_task ses1 "search" "web_search" searchParams
    let ses3 := setTaskResult created.1 task.id (ResultVal.subTaskCreated created.2)
    let ses4 := setTaskStatus ses3 task.id "running"
    Except.ok ses4.commitS

/-- The dispatch switch of `OrchestratorAgent.process_task`: route the task
    to its agent; an `Except.error` is the exception propagating to the
    orchestrator's handler, carrying the session as it stands at the raise. -/
def routeAgent (env : Env) (ses : Session) (task : AgentTask) :
    Except (String × Session) Session :=
  if task.agent_type = "orchestration" then
    (if task.task_type = "generate_full_profile" then handle_generate_full_profile ses task
     else Except.error ("Unknown orchestration task type: " ++ task.task_type, ses))
  else if task.agent_type = "data_ingestion" then dataIngestion_process_task ses task
  else if task.agent_type = "search" then searchAgent_process_task env ses task
  else if task.agent_type = "web_crawler" then webCrawler_process_task env ses task
  else if task.agent_type = "information_extraction" then infoExtraction_process_task env ses task
  else if task.agent_type = "analysis" then analysisAgent_process_task ses task
  else if task.agent_type = "storage" then storageAgent_process_task ses task
  else Except.error ("Unknown agent type: " ++ task.agent_type, ses)

/-- `OrchestratorAgent.process_task`, operating on one task record: load by
    id (absent: stop); skip a task already terminal; commit
    `running`/`started_at`; route to the agent; on success finalize
    `completed` (supplying the default summary when the agent set no result)
    and commit — except for orchestration meta-tasks, whose handler manages
    its own status; on a raised failure roll back, reload and finalize
    `failed` with the exception text. -/
def process_task (env : Env) (now : Nat) (db : Store) (task_id : Nat) : Store :=
  match findTask db task_id with
  | none => db
  | some task =>
    if task.status = "completed" ∨ task.status = "failed" then db
    else
      let db1 := modifyTask db task_id
        (fun t => { t with status := "running", started_at := some now })
      let task1 : AgentTask := { task with status := "running", started_at := some now }
      match routeAgent env ⟨db1, db1⟩ task1 with
      | Except.ok ses1 =>
        if task1.agent_type = "orchestration" then ses1.committed
        else
          match findTask ses1.pending task_id with
          | none => ses1.pending
          | some t2 =>
            let r := match t2.result with
                     | some r0 => r0
                     | none => ResultVal.defaultSuccess task1.agent_type task1.task_type
            modifyTask ses1.pending task_id (fun t =>
              { t with
                status := "completed", completed_at := some now, result := some r })
      | Except.error (e, sesE) =>
        let dbr := (Session.rollbackS sesE).pending
        match findTask dbr task_id with
        | none => dbr
        | some _ =>
          modifyTask dbr task_id (fun t =>
            { t with
              status := "failed", error := some e, completed_at := some now })

/-- `main.run_task_processor`: run one task processing attempt in a fresh
    session; if the dispatcher raises an exception that escapes (`proc`
    returning `Except.error` with the store as committed at the escape), mark
    the task failed with a diagnostic error unless it already completed; the
    session is closed (the returned flag) on every exit path. -/
def run_task_processor (proc : Store → Except (String × Store) Store) (now : Nat)
    (task_id : Nat) (db0 : Store) : Store × Bool :=
  match proc db0 with
  | Except.ok db1 => (db1, true)
  | Except.error (e, db1) =>
    match findTask db1 task_id with
    | none => (db1, true)
    | some t =>
      if t.status = "completed" then (db1, true)
      else
        (modifyTask db1 task_id (fun u =>
          { u with
            status := "failed",
            error := some ("Background execution error: " ++ e),
            completed_at := some now }), true)

/-- Create the crawl tasks of `main.trigger_crawl_tasks_for_search`, one per
    unprocessed search result, carrying the result's url and id; returns the
    created task records. -/
def mkCrawlTasks : Store → List SearchResult → Store × List AgentTask
  | db, [] => (db, [])
  | db, r :: rest =>
    let p := addTaskRecord db "web_crawler" "crawl_url"
      { url := some r.url, search_result_id := some r.id } "pending"
    let q := mkCrawlTasks p.1 rest
    (q.1, (findTask p.1 p.2).toList ++ q.2)

/-- `main.trigger_crawl_tasks_for_search`: for an existing search query,
    create one crawl task per search result of that query that is not yet
    processed. -/
def trigger_crawl_tasks_for_search (db : Store) (search_id : Nat) :
    Store × List AgentTask :=
  match db.searchQueries.find? (fun q => q.id = search_id) with
  | none => (db, [])
  | some _ =>
    let unprocessed := db.searchResults.filter
      (fun r => r.query_id = search_id ∧ r.is_processed = false)
    mkCrawlTasks db unprocessed

/-- `main.trigger_extraction_task_for_crawl`: for a completed crawl task whose
    result reports success and carries a non-empty content snippet, create
    one pending extraction task; in every other case create nothing. -/
def trigger_extraction_task_for_crawl (db : Store) (crawl_task_id : Nat) :
    Store × Option Nat :=
  match db.tasks.find? (fun t =>
      t.id = crawl_task_id ∧ t.agent_type = "web_crawler" ∧ t.task_type = "crawl_url") with
  | none => (db, none)
  | some ct =>
    if ¬ ct.status = "completed" then (db, none)
    else
      match ct.result with
      | none => (db, none)
      | some r =>
        if ¬ r.statusGet = some "success" then (db, none)
        else
          let snippet := r.snippetGet.getD ""
          if snippet = "" then (db, none)
          else
            let p := addTaskRecord db "information_extraction" "extract_from_content"
              { content := some snippet, source_url := r.urlGet,
                original_search_result_id := ct.params.search_result_id } "pending"
            (p.1, some p.2)

/-- The fan-out section of `ExtractInformationTool._run`: trigger one
    extraction per listed crawl task id, collecting the ids of the extraction
    tasks actually created. -/
def extractToolTriggerAll : Store → List Nat → Store × List Nat
  | db, [] => (db, [])
  | db, i :: rest =>
    let p := trigger_extraction_task_for_crawl db i
    let q := extractToolTriggerAll p.1 rest
    (q.1, p.2.toList ++ q.2)

/-- `orchestration.MAX_POLL_ATTEMPTS`. -/
def MAX_POLL_ATTEMPTS : Nat := 12

/-- `orchestration.POLL_INTERVAL_SECONDS`. -/
def POLL_INTERVAL_SECONDS : Nat := 5

/-- The task as seen by one polling GET: its status, the `status` field of
    its result dict, and its error text. -/
structure TaskView where
  status : String
  resultStatus : Option String := none
  error : Option String := none
deriving DecidableEq

/-- Outcome of the `SearchCompanyTool._run` polling loop: normal loop exit on
    completion, or a raised `ToolException` (task failed / polling timed
    out). -/
inductive SearchPollOutcome where
  | completedOk
  | raisedTaskFailed (msg : String)
  | raisedTimeout
deriving DecidableEq, BEq

/-- `SearchCompanyTool._run` polling from a given attempt index with
    `rem` attempts remaining; returns the outcome and the number of status
    GETs performed.  On the last attempt a still pending/running status
    raises the timeout `ToolException`. -/
def searchPollFrom (view : Nat → TaskView) (attempt : Nat) : Nat → SearchPollOutcome × Nat
  | 0 => (SearchPollOutcome.raisedTimeout, 0)
  | rem + 1 =>
    let tv := view attempt
    if tv.status = "completed" then (SearchPollOutcome.completedOk, 1)
    else if tv.status = "failed" then
      (SearchPollOutcome.raisedTaskFailed
        ("Backend search task failed: " ++ tv.error.getD "Unknown error"), 1)
    else if rem = 0 then (SearchPollOutcome.raisedTimeout, 1)
    else
      let p := searchPollFrom view (attempt + 1) rem
      (p.1, p.2 + 1)

/-- The full search polling loop (`for attempt in range(MAX_POLL_ATTEMPTS)`). -/
def searchPollLoop (view : Nat → TaskView) : SearchPollOutcome × Nat :=
  searchPollFrom view 0 MAX_POLL_ATTEMPTS

/-- Outcome of one crawl task's polling loop inside `CrawlURLsTool._run`.
    Unlike the search loop, every exit is a `break`: a failed task and an
    exhausted attempt budget are logged and skipped, not raised. -/
inductive CrawlPollOutcome where
  | succeeded
  | completedNoSuccess
  | taskFailed
  | timedOut
deriving DecidableEq, BEq

/-- Per-task polling of `CrawlURLsTool._run` (attempt index, remaining
    attempts); returns the outcome and the number of status GETs. -/
def crawlPollFrom (view : Nat → TaskView) (attempt : Nat) : Nat → CrawlPollOutcome × Nat
  | 0 => (CrawlPollOutcome.timedOut, 0)
  | rem + 1 =>
    let tv := view attempt
    if tv.status = "completed" then
      (if tv.resultStatus = some "success" then (CrawlPollOutcome.succeeded, 1)
       else (CrawlPollOutcome.completedNoSuccess, 1))
    else if tv.status = "failed" then (CrawlPollOutcome.taskFailed, 1)
    else if rem = 0 then (CrawlPollOutcome.timedOut, 1)
    else
      let p := crawlPollFrom view (attempt + 1) rem
      (p.1, p.2 + 1)

/-- One crawl task's full polling loop. -/
def crawlPollLoop (view : Nat → TaskView) : CrawlPollOutcome × Nat :=
  crawlPollFrom view 0 MAX_POLL_ATTEMPTS

/-- Section 3 of `CrawlURLsTool._run`: poll every identified crawl task and
    keep the ids whose task completed with a success result; failed and
    timed-out tasks are skipped and the loop never raises. -/
def crawlPollAll (views : Nat → Nat → TaskView) (ids : List Nat) : List Nat :=
  ids.filter (fun tid => (crawlPollLoop (views tid)).1 == CrawlPollOutcome.succeeded)

/-- Count of extraction tasks currently in the store. -/
def extractionTaskCount (db : Store) : Nat :=
  (db.tasks.filter (fun t =>
    t.agent_type = "information_extraction" ∧ t.task_type = "extract_from_content")).length

/-- The crawl task with the given id exists, is completed, its result reports
    success and its content snippet is non-empty — the precondition under
    which the extraction fan-out creates a task. -/
def successfulCrawlWithContent (db : Store) (i : Nat) : Bool :=
  match db.tasks.find? (fun u =>
      u.id = i ∧ u.agent_type = "web_crawler" ∧ u.task_type = "crawl_url") with
  | none => false
  | some t =>
    t.status = "completed" &&
    (match t.result with
     | none => false
     | some r => r.statusGet = some "success" && ¬ (r.snippetGet.getD "") = "")

/- ------------------------------------------------------------------ -/
/- Helper lemmas                                                      -/
/- ------------------------------------------------------------------ -/

theorem find?_map_id_pres (l : List AgentTask) (i j : Nat) (f : AgentTask → AgentTask)
    (hid : ∀ t, (f t).id = t.id) :
    (l.map (fun t => if t.id = i then f t else t)).find? (fun t => t.id = j)
      = (l.find? (fun t => t.id = j)).map (fun t => if t.id = i then f t else t) := by
  induction l with
  | nil => rfl
  | cons a l ih =>
    simp only [List.map_cons]
    by_cases h : a.id = j
    · have h2 : ((if a.id = i then f a else a).id = j) := by
        by_cases hi : a.id = i
        · rw [if_pos hi, hid]; exact h
        · rw [if_neg hi]; exact h
      rw [List.find?_cons_of_pos _ (by simpa using h2),
          List.find?_cons_of_pos _ (by simpa using h)]
      rfl
    · have h2 : ¬ ((if a.id = i then f a else a).id = j) := by
        by_cases hi : a.id = i
        · rw [if_pos hi, hid]; exact h
        · rw [if_neg hi]; exact h
      rw [List.find?_cons_of_neg _ (by simpa using h2),
          List.find?_cons_of_neg _ (by simpa using h), ih]

theorem findTask_modifyTask (db : Store) (i j : Nat) (f : AgentTask → AgentTask)
    (hid : ∀ t, (f t).id = t.id) :
    findTask (modifyTask db i f) j
      = (findTask db j).map (fun t => if t.id = i then f t else t) := by
  unfold findTask modifyTask
  exact find?_map_id_pres db.tasks i j f hid

theorem findTask_addTaskRecord (db : Store) (a τ : String) (p : Params) (st : String)
    (j : Nat) (t : AgentTask) (h : findTask db j = some t) :
    findTask (addTaskRecord db a τ p st).1 j = some t := by
  unfold findTask addTaskRecord at *
  simp only [List.find?_append, h]
  rfl

theorem findTask_eq_none_of_fresh (db : Store) (j : Nat)
    (h : ∀ t ∈ db.tasks, t.id ≠ j) : findTask db j = none := by
  unfold findTask
  rw [List.find?_eq_none]
  intro t ht
  simpa using h t ht

theorem searchPollFrom_timeout (view : Nat → TaskView) :
    ∀ rem attempt, 1 ≤ rem →
      (∀ i, attempt ≤ i → i < attempt + rem →
        (view i).status = "pending" ∨ (view i).status = "running") →
      searchPollFrom view attempt rem = (SearchPollOutcome.raisedTimeout, rem) := by
  intro rem
  induction rem with
  | zero => intro attempt h; omega
  | succ n ih =>
    intro attempt _ h
    have hv := h attempt (Nat.le_refl _) (by omega)
    have hnc : ¬ (view attempt).status = "completed" := by
      rcases hv with h' | h' <;> rw [h'] <;> decide
    have hnf : ¬ (view attempt).status = "failed" := by
      rcases hv with h' | h' <;> rw [h'] <;> decide
    simp only [searchPollFrom, if_neg hnc, if_neg hnf]
    by_cases hn : n = 0
    · subst hn; simp
    · rw [if_neg hn, ih (attempt + 1) (by omega)
        (fun i hi1 hi2 => h i (by omega) (by omega))]

theorem crawlPollFrom_timeout (view : Nat → TaskView) :
    ∀ rem attempt, 1 ≤ rem →
      (∀ i, attempt ≤ i → i < attempt + rem →
        (view i).status = "pending" ∨ (view i).status = "running") →
      crawlPollFrom view attempt rem = (CrawlPollOutcome.timedOut, rem) := by
  intro rem
  induction rem with
  | zero => intro attempt h; omega
  | succ n ih =>
    intro attempt _ h
    have hv := h attempt (Nat.le_refl _) (by omega)
    have hnc : ¬ (view attempt).status = "completed" := by
      rcases hv with h' | h' <;> rw [h'] <;> decide
    have hnf : ¬ (view attempt).status = "failed" := by
      rcases hv with h' | h' <;> rw [h'] <;> decide
    simp only [crawlPollFrom, if_neg hnc, if_neg hnf]
    by_cases hn : n = 0
    · subst hn; simp
    · rw [if_neg hn, ih (attempt + 1) (by omega)
        (fun i hi1 hi2 => h i (by omega) (by omega))]

/- ------------------------------------------------------------------ -/
/- C1                                                                 -/
/- ------------------------------------------------------------------ -/

/-- C1: for every task whose status is already `completed` or `failed`,
    invoking the dispatcher's `process_task` on it again returns with the
    store unchanged — no field of any record changes and no agent runs. -/
theorem C1_terminal_reprocess_noop (env : Env) (now : Nat) (db : Store) (task_id : Nat)
    (task : AgentTask) (hf : findTask db task_id = some task)
    (ht : task.status = "completed" ∨ task.status = "failed") :
    process_task env now db task_id = db := by
  unfold process_task
  rw [hf]
  exact if_pos ht

/-- Concrete store for the C1 witness: one completed task. -/
def C1db : Store :=
  { tasks := [{ id := 1, agent_type := "search", task_type := "web_search",
                status := "completed",
                result := some (ResultVal.defaultSuccess "search" "web_search") }] }

/-- Witness instantiating C1 at a concrete completed task. -/
theorem C1_witness : process_task {} 5 C1db 1 = C1db :=
  C1_terminal_reprocess_noop {} 5 C1db 1
    { id := 1, agent_type := "search", task_type := "web_search",
      status := "completed",
      result := some (ResultVal.defaultSuccess "search" "web_search") }
    (by decide) (Or.inl rfl)

/- ------------------------------------------------------------------ -/
/- C4                                                                 -/
/- ------------------------------------------------------------------ -/

/-- C4 (amended): for a task that never leaves `pending`/`running`, the
    search-stage polling loop performs exactly `MAX_POLL_ATTEMPTS` status
    polls and then raises the named timeout `ToolException`; the crawl-stage
    per-task polling loop also performs exactly `MAX_POLL_ATTEMPTS` polls but
    then breaks without raising, merely excluding the timed-out task from the
    successful-id list. -/
theorem C4_poll_timeout_after_exact_attempts (view1 view2 : Nat → TaskView)
    (ids : List Nat)
    (h1 : ∀ i, i < MAX_POLL_ATTEMPTS →
      (view1 i).status = "pending" ∨ (view1 i).status = "running")
    (h2 : ∀ i, i < MAX_POLL_ATTEMPTS →
      (view2 i).status = "pending" ∨ (view2 i).status = "running") :
    searchPollLoop view1 = (SearchPollOutcome.raisedTimeout, MAX_POLL_ATTEMPTS) ∧
    crawlPollLoop view2 = (CrawlPollOutcome.timedOut, MAX_POLL_ATTEMPTS) ∧
    crawlPollAll (fun _ => view2) ids = [] := by
  have hc : crawlPollFrom view2 0 MAX_POLL_ATTEMPTS = (CrawlPollOutcome.timedOut, MAX_POLL_ATTEMPTS) :=
    crawlPollFrom_timeout view2 MAX_POLL_ATTEMPTS 0 (by decide)
      (fun i hi1 hi2 => h2 i (by omega))
  refine ⟨?_, hc, ?_⟩
  · exact searchPollFrom_timeout view1 MAX_POLL_ATTEMPTS 0 (by decide)
      (fun i hi1 hi2 => h1 i (by omega))
  · unfold crawlPollAll crawlPollLoop
    rw [List.filter_eq_nil_iff]
    intro a _
    rw [hc]
    decide

/-- Witness instantiating the amended C4 at a view that always answers
    `running`. -/
theorem C4_witness :
    searchPollLoop (fun _ => { status := "running" }) = (SearchPollOutcome.raisedTimeout, 12) ∧
    crawlPollLoop (fun _ => { status := "running" }) = (CrawlPollOutcome.timedOut, 12) ∧
    crawlPollAll (fun _ => fun _ => ({ status := "running" } : TaskView)) [3] = [] :=
  C4_poll_timeout_after_exact_attempts (fun _ => { status := "running" })
    (fun _ => { status := "running" }) [3] (by decide) (by decide)

/-- C4 counterexample: the claim states that every coordinator polling loop
    raises a named timeout failure on exhaustion; the per-task loop of
    `CrawlURLsTool._run` (orchestration.py lines 238-240) instead breaks out
    normally after its 12 polls and the tool moves on, returning an empty
    success list instead of raising. -/
theorem C4_counterexample :
    crawlPollLoop (fun _ => { status := "running" }) = (CrawlPollOutcome.timedOut, 12) ∧
    crawlPollAll (fun _ => fun _ => ({ status := "running" } : TaskView)) [41] = [] := by
  decide

/- ------------------------------------------------------------------ -/
/- C7                                                                 -/
/- ------------------------------------------------------------------ -/

/-- C7: the execution-context runner releases its storage session on every
    exit path, and when the dispatcher escapes with an exception it marks the
    task `failed` with a diagnostic error and a `completed_at` timestamp
    unless the task already completed — so the escaped exception leaves no
    task in `running`. -/
theorem C7_runner_marks_failed_and_closes
    (proc : Store → Except (String × Store) Store) (now : Nat) (task_id : Nat)
    (db0 : Store) :
    (run_task_processor proc now task_id db0).2 = true ∧
    (∀ e db1 t, proc db0 = Except.error (e, db1) →
      findTask db1 task_id = some t → ¬ t.status = "completed" →
      findTask (run_task_processor proc now task_id db0).1 task_id =
        some
          { t with
            status := "failed",
            error := some ("Background execution error: " ++ e),
            completed_at := some now }) := by
  constructor
  · unfold run_task_processor
    rcases hp : proc db0 with ⟨e, db1⟩ | db1
    · dsimp only
      rcases hf : findTask db1 task_id with _ | t
      · rfl
      · dsimp only
        by_cases hs : t.status = "completed"
        · rw [if_pos hs]
        · rw [if_neg hs]
    · rfl
  · intro e db1 t hp hf hs
    unfold run_task_processor
    rw [hp]
    dsimp only
    rw [hf]
    dsimp only
    rw [if_neg hs]
    rw [findTask_modifyTask db1 task_id task_id
          (fun u =>
            { u with
              status := "failed",
              error := some ("Background execution error: " ++ e),
              completed_at := some now })
          (fun u => rfl), hf]
    have hid : t.id = task_id := by
      have := List.find?_some hf
      simpa using this
    simp [hid]

/-- Running task used by the C7 witness. -/
def C7task : AgentTask :=
  { id := 4, agent_type := "search", task_type := "web_search",
    status := "running", started_at := some 1 }

/-- Concrete store for the C7 witness. -/
def C7db : Store := { tasks := [C7task] }

/-- Witness instantiating C7 at a dispatcher that escapes with an exception
    over a running task. -/
theorem C7_witness :
    (run_task_processor (fun db => Except.error ("boom", db)) 8 4 C7db).2 = true ∧
    findTask (run_task_processor (fun db => Except.error ("boom", db)) 8 4 C7db).1 4 =
      some
        { C7task with
          status := "failed",
          error := some ("Background execution error: " ++ "boom"),
          completed_at := some 8 } := by
  refine ⟨(C7_runner_marks_failed_and_closes _ 8 4 C7db).1, ?_⟩
  exact (C7_runner_marks_failed_and_closes (fun db => Except.error ("boom", db)) 8 4 C7db).2
    "boom" C7db C7task rfl (by decide) (by decide)

/- ------------------------------------------------------------------ -/
/- C5                                                                 -/
/- ------------------------------------------------------------------ -/

theorem findFenceBody_spec (suffix : List Char) (hs : fenceAfterClose suffix = true) :
    ∀ (inner acc : List Char), rbrace ∉ inner →
      findFenceBody acc (inner ++ rbrace :: suffix) = some (acc.reverse ++ inner) := by
  intro inner
  induction inner with
  | nil =>
    intro acc _
    simp only [List.nil_append]
    unfold findFenceBody
    rw [if_pos ⟨rfl, hs⟩]
    simp
  | cons a as ih =>
    intro acc h
    have ha : ¬ (a = rbrace ∧ fenceAfterClose (as ++ rbrace :: suffix) = true) := by
      intro hcon
      exact h (by simp [hcon.1])
    show findFenceBody acc (a :: (as ++ rbrace :: suffix)) = _
    unfold findFenceBody
    rw [if_neg ha, ih (a :: acc) (fun hm => h (List.mem_cons_of_mem a hm))]
    simp

theorem stripChars_brace_wrap (l : List Char) :
    stripChars (lbrace :: (l ++ [rbrace])) = lbrace :: (l ++ [rbrace]) := by
  unfold stripChars
  have h1 : ¬ isPySpace lbrace = true := by decide
  have h2 : ¬ isPySpace rbrace = true := by decide
  rw [List.dropWhile_cons_of_neg h1]
  have hr : (lbrace :: (l ++ [rbrace])).reverse = rbrace :: (l.reverse ++ [lbrace]) := by
    simp
  rw [hr, List.dropWhile_cons_of_neg h2]
  simp

/-- The character-level open fence `"```json\n\x7b"`. -/
def fenceOpenChars : List Char :=
  [Char.ofNat 96, Char.ofNat 96, Char.ofNat 96, 'j', 's', 'o', 'n', '\n', Char.ofNat 123]

/-- The character-level close fence `"\x7d\n```"` split off its brace. -/
def fenceTailChars : List Char := ['\n', Char.ofNat 96, Char.ofNat 96, Char.ofNat 96]

theorem matchFenceAt_fenced (inner : List Char) (hin : rbrace ∉ inner) :
    matchFenceAt (fenceOpenChars ++ (inner ++ rbrace :: fenceTailChars))
      = some (lbrace :: (inner ++ [rbrace])) := by
  have hbody := findFenceBody_spec fenceTailChars (by decide) inner [] hin
  unfold matchFenceAt
  rw [if_pos (by simp [fenceOpenChars, fenceMarker, isPrefixList])]
  have hdrop : (fenceOpenChars ++ (inner ++ rbrace :: fenceTailChars)).drop 3
      = 'j' :: 's' :: 'o' :: 'n' :: '\n' :: lbrace :: (inner ++ rbrace :: fenceTailChars) := by
    simp [fenceOpenChars, lbrace]
  rw [hdrop]
  dsimp only
  have hjson : startsWithJsonCI
      ('j' :: 's' :: 'o' :: 'n' :: '\n' :: lbrace :: (inner ++ rbrace :: fenceTailChars)) = true := rfl
  rw [if_pos hjson]
  have hdw : List.dropWhile isPySpace
      (List.drop 4 ('j' :: 's' :: 'o' :: 'n' :: '\n' :: lbrace :: (inner ++ rbrace :: fenceTailChars)))
      = lbrace :: (inner ++ rbrace :: fenceTailChars) := by
    simp only [List.drop_succ_cons, List.drop_zero]
    rw [List.dropWhile_cons_of_pos (by decide), List.dropWhile_cons_of_neg (by decide)]
  rw [hdw]
  dsimp only
  rw [if_pos rfl, hbody]
  simp

theorem stripFence_fenced (inner : String) (hin : rbrace ∉ inner.data) :
    stripFence ("```json\n\x7b" ++ inner ++ "\x7d\n```") = "\x7b" ++ inner ++ "\x7d" := by
  have hdata : ("```json\n\x7b" ++ inner ++ "\x7d\n```").data
      = fenceOpenChars ++ (inner.data ++ rbrace :: fenceTailChars) := by
    rw [String.data_append, String.data_append]
    have h1 : ("```json\n\x7b" : String).data = fenceOpenChars := by decide
    have h2 : ("\x7d\n```" : String).data = rbrace :: fenceTailChars := by decide
    rw [h1, h2, List.append_assoc]
  have hm := matchFenceAt_fenced inner.data hin
  have hcons : fenceOpenChars ++ (inner.data ++ rbrace :: fenceTailChars)
      = Char.ofNat 96 :: (Char.ofNat 96 :: Char.ofNat 96 :: 'j' :: 's' :: 'o' :: 'n' :: '\n' ::
          Char.ofNat 123 :: (inner.data ++ rbrace :: fenceTailChars)) := by
    simp [fenceOpenChars]
  have hsearch : searchFence (fenceOpenChars ++ (inner.data ++ rbrace :: fenceTailChars))
      = some (lbrace :: (inner.data ++ [rbrace])) := by
    rw [hcons]
    unfold searchFence
    rw [← hcons, hm]
  unfold stripFence
  rw [hdata, hsearch]
  dsimp only
  rw [stripChars_brace_wrap]
  have hrhs : ("\x7b" ++ inner ++ "\x7d").data = lbrace :: (inner.data ++ [rbrace]) := by
    rw [String.data_append, String.data_append]
    have h1 : ("\x7b" : String).data = [lbrace] := by decide
    have h2 : ("\x7d" : String).data = [rbrace] := by decide
    rw [h1, h2]
    simp
  rw [← hrhs]

/-- C5: the extraction step first strips a markdown ````json ... ```` fence
    when one is present (the fenced JSON object is what gets parsed), and on
    any parse/validation failure `extract_structured_data_with_llm` returns
    the default `ExtractedData` value (all fields `None`/empty) instead of
    raising — by construction the Lean model of the function is total, so no
    input raises. -/
theorem C5_fence_strip_and_parse_failure_recovery
    (parse : String → Option ExtractedData) (llmC : Bool) (text raw inner : String)
    (hin : rbrace ∉ inner.data)
    (hfail : parse (stripFence raw) = none) :
    stripFence ("```json\n\x7b" ++ inner ++ "\x7d\n```") = "\x7b" ++ inner ++ "\x7d" ∧
    extract_structured_data_with_llm parse llmC text raw = emptyExtractedData := by
  refine ⟨stripFence_fenced inner hin, ?_⟩
  unfold extract_structured_data_with_llm
  by_cases hc : llmC = false
  · rw [if_pos hc]
  · rw [if_neg hc]
    by_cases ht : text = ""
    · rw [if_pos ht]
    · rw [if_neg ht, hfail]

/-- Witness instantiating C5 at a concrete fenced output and an
    always-failing parser. -/
theorem C5_witness :
    stripFence ("```json\n\x7b" ++ "k: 1" ++ "\x7d\n```") = "\x7b" ++ "k: 1" ++ "\x7d" ∧
    extract_structured_data_with_llm (fun _ => none) true "some text" "not json at all"
      = emptyExtractedData :=
  C5_fence_strip_and_parse_failure_recovery (fun _ => none) true "some text"
    "not json at all" "k: 1" (by decide) rfl

/- ------------------------------------------------------------------ -/
/- C8                                                                 -/
/- ------------------------------------------------------------------ -/

theorem buildLinkRows_company_id (cid : Nat) :
    ∀ (lks : List LinkData), ∀ row ∈ buildLinkRows cid lks, row.company_id = cid := by
  intro lks
  induction lks with
  | nil => intro row h; simp [buildLinkRows] at h
  | cons l rest ih =>
    intro row h
    unfold buildLinkRows at h
    by_cases ht : truthyS l.url = true
    · rw [if_pos ht] at h
      rcases List.mem_cons.mp h with h | h
      · rw [h]
      · exact ih row h
    · rw [if_neg ht] at h
      exact ih row h

/-- C8: with `overwrite` absent or false, `store_company_links` never deletes
    a previously stored link (every old row survives, the new rows are
    appended); with `overwrite = true` the company's old links are deleted
    exactly once and replaced by the submitted rows, other companies' links
    untouched. -/
theorem C8_store_links_append_vs_overwrite (ses : Session) (params : Params)
    (cid : Nat) (lks : List LinkData) (c : Company)
    (hcid : params.company_id = some cid) (h0 : cid ≠ 0)
    (hlks : params.links = some lks)
    (hc : ses.pending.companies.find? (fun x => x.id = cid) = some c) :
    ∃ s1, store_company_links ses params
        = Except.ok (s1, ResultVal.storeLinksOk (buildLinkRows cid lks).length) ∧
      ((params.overwrite = none ∨ params.overwrite = some false) →
        ∀ l ∈ ses.pending.links, l ∈ s1.pending.links) ∧
      (params.overwrite = some true →
        s1.pending.links.filter (fun l => l.company_id = cid) = buildLinkRows cid lks ∧
        s1.pending.links.filter (fun l => ¬ l.company_id = cid)
          = ses.pending.links.filter (fun l => ¬ l.company_id = cid)) := by
  have hguard : ¬ (¬ truthyN params.company_id = true ∨ params.links.isNone = true) := by
    rw [hcid, hlks]
    simp [truthyN, h0]
  have hrows : ∀ row ∈ buildLinkRows cid lks, row.company_id = cid :=
    buildLinkRows_company_id cid lks
  rcases hov : params.overwrite with _ | b
  · have hrun : store_company_links ses params
        = Except.ok (Session.commitS ⟨ses.committed,
            { ses.pending with links := ses.pending.links ++ buildLinkRows cid lks }⟩,
          ResultVal.storeLinksOk (buildLinkRows cid lks).length) := by
      unfold store_company_links
      rw [if_neg hguard, hcid, hlks, hov]
      dsimp only [Option.getD_some, Option.getD_none]
      rw [hc]
      rfl
    refine ⟨_, hrun, ?_, ?_⟩
    · intro _ l hl
      simp only [Session.commitS]
      exact List.mem_append_left _ hl
    · intro hcon; cases hcon
  · cases b
    · have hrun : store_company_links ses params
          = Except.ok (Session.commitS ⟨ses.committed,
              { ses.pending with links := ses.pending.links ++ buildLinkRows cid lks }⟩,
            ResultVal.storeLinksOk (buildLinkRows cid lks).length) := by
        unfold store_company_links
        rw [if_neg hguard, hcid, hlks, hov]
        dsimp only [Option.getD_some]
        rw [hc]
        rfl
      refine ⟨_, hrun, ?_, ?_⟩
      · intro _ l hl
        simp only [Session.commitS]
        exact List.mem_append_left _ hl
      · intro hcon; cases hcon
    · have hrun : store_company_links ses params
          = Except.ok (Session.commitS ⟨ses.committed,
              { ses.pending with links :=
                  ses.pending.links.filter (fun l => ¬ l.company_id = cid)
                    ++ buildLinkRows cid lks }⟩,
            ResultVal.storeLinksOk (buildLinkRows cid lks).length) := by
        unfold store_company_links
        rw [if_neg hguard, hcid, hlks, hov]
        dsimp only [Option.getD_some]
        rw [hc]
        rfl
      refine ⟨_, hrun, ?_, ?_⟩
      · intro hcon; rcases hcon with hcon | hcon <;> cases hcon
      · intro _
        simp only [Session.commitS]
        constructor
        · rw [List.filter_append]
          have hleft : (ses.pending.links.filter
              (fun l => ¬ l.company_id = cid)).filter (fun l => l.company_id = cid) = [] := by
            rw [List.filter_eq_nil_iff]
            intro a ha
            have := (List.mem_filter.mp ha).2
            simpa using this
          have hright : (buildLinkRows cid lks).filter (fun l => l.company_id = cid)
              = buildLinkRows cid lks := by
            rw [List.filter_eq_self]
            intro a ha
            simpa using hrows a ha
          rw [hleft, hright, List.nil_append]
        · rw [List.filter_append]
          have hleft : (ses.pending.links.filter
              (fun l => ¬ l.company_id = cid)).filter (fun l => ¬ l.company_id = cid)
              = ses.pending.links.filter (fun l => ¬ l.company_id = cid) := by
            rw [List.filter_eq_self]
            intro a ha
            exact (List.mem_filter.mp ha).2
          have hright : (buildLinkRows cid lks).filter (fun l => ¬ l.company_id = cid) = [] := by
            rw [List.filter_eq_nil_iff]
            intro a ha
            simpa using hrows a ha
          rw [hleft, hright, List.append_nil]

/-- Session used by the C8 witness: one company with one pre-existing link. -/
def C8ses : Session :=
  { committed := { companies := [{ id := 2, name := "Acme" }],
                   links := [{ company_id := 2, url := "http://old.example" }] },
    pending := { companies := [{ id := 2, name := "Acme" }],
                 links := [{ company_id := 2, url := "http://old.example" }] } }

/-- Parameters used by the C8 witness: an overwrite submission of one link. -/
def C8params : Params :=
  { company_id := some 2,
    links := some [{ url := some "http://new.example", link_type := some "news" }],
    overwrite := some true }

/-- Witness instantiating C8 at an `overwrite = true` submission over a
    company that already has a stored link. -/
theorem C8_witness :
    ∃ s1, store_company_links C8ses C8params
        = Except.ok (s1, ResultVal.storeLinksOk (buildLinkRows 2 (C8params.links.getD [])).length) ∧
      ((C8params.overwrite = none ∨ C8params.overwrite = some false) →
        ∀ l ∈ C8ses.pending.links, l ∈ s1.pending.links) ∧
      (C8params.overwrite = some true →
        s1.pending.links.filter (fun l => l.company_id = 2)
          = buildLinkRows 2 (C8params.links.getD []) ∧
        s1.pending.links.filter (fun l => ¬ l.company_id = 2)
          = C8ses.pending.links.filter (fun l => ¬ l.company_id = 2)) :=
  C8_store_links_append_vs_overwrite C8ses C8params 2 (C8params.links.getD [])
    { id := 2, name := "Acme" } (by decide) (by decide) (by decide) (by decide)

/- ------------------------------------------------------------------ -/
/- C6                                                                 -/
/- ------------------------------------------------------------------ -/

theorem trigger_extraction_success (db : Store) (i : Nat)
    (h : successfulCrawlWithContent db i = true) :
    ∃ nt : AgentTask,
      trigger_extraction_task_for_crawl db i
        = ({ db with tasks := db.tasks ++ [nt], nextTaskId := db.nextTaskId + 1 }, some nt.id) ∧
      nt.id = db.nextTaskId ∧
      nt.agent_type = "information_extraction" ∧ nt.task_type = "extract_from_content" := by
  unfold successfulCrawlWithContent at h
  rcases hf : db.tasks.find? (fun u =>
      u.id = i ∧ u.agent_type = "web_crawler" ∧ u.task_type = "crawl_url") with _ | ct
  · rw [hf] at h; cases h
  · rw [hf] at h
    dsimp only at h
    rcases hr : ct.result with _ | r
    · rw [hr] at h; simp at h
    · rw [hr] at h
      rw [Bool.and_eq_true, Bool.and_eq_true] at h
      have hst := h.1
      have hsucc := h.2.1
      have hsnip := h.2.2
      unfold trigger_extraction_task_for_crawl
      rw [hf]
      dsimp only
      rw [if_neg (not_not_intro (by simpa using hst))]
      rw [hr]
      dsimp only
      rw [if_neg (not_not_intro (by simpa using hsucc))]
      rw [if_neg (by simpa using hsnip)]
      exact ⟨_, rfl, rfl, rfl, rfl⟩

theorem successfulCrawl_preserved (db : Store) (nt : AgentTask) (i : Nat)
    (hnt : nt.agent_type = "information_extraction") :
    successfulCrawlWithContent
      { db with tasks := db.tasks ++ [nt], nextTaskId := db.nextTaskId + 1 } i
      = successfulCrawlWithContent db i := by
  unfold successfulCrawlWithContent
  have hone : List.find? (fun u =>
      u.id = i ∧ u.agent_type = "web_crawler" ∧ u.task_type = "crawl_url") [nt] = none := by
    simp [hnt]
  simp only [List.find?_append, hone]
  rw [Option.or_none]

theorem extractionTaskCount_append (db : Store) (nt : AgentTask)
    (h1 : nt.agent_type = "information_extraction")
    (h2 : nt.task_type = "extract_from_content") :
    extractionTaskCount { db with tasks := db.tasks ++ [nt], nextTaskId := db.nextTaskId + 1 }
      = extractionTaskCount db + 1 := by
  unfold extractionTaskCount
  rw [List.filter_append]
  simp [h1, h2]

theorem extractToolTriggerAll_spec : ∀ (ids : List Nat) (db : Store),
    (∀ i ∈ ids, successfulCrawlWithContent db i = true) →
    (extractToolTriggerAll db ids).2.length = ids.length ∧
    extractionTaskCount (extractToolTriggerAll db ids).1
      = extractionTaskCount db + ids.length := by
  intro ids
  induction ids with
  | nil => intro db _; exact ⟨rfl, rfl⟩
  | cons i rest ih =>
    intro db h
    obtain ⟨nt, htr, _, hnt1, hnt2⟩ :=
      trigger_extraction_success db i (h i (List.mem_cons_self i rest))
    unfold extractToolTriggerAll
    rw [htr]
    dsimp only
    have hrest : ∀ j ∈ rest, successfulCrawlWithContent
        { db with tasks := db.tasks ++ [nt], nextTaskId := db.nextTaskId + 1 } j = true := by
      intro j hj
      rw [successfulCrawl_preserved db nt j hnt1]
      exact h j (List.mem_cons_of_mem i hj)
    obtain ⟨l1, l2⟩ := ih _ hrest
    refine ⟨?_, ?_⟩
    · simp [l1]
    · have happ := extractionTaskCount_append db nt hnt1 hnt2
      simp only [List.length_cons]
      omega

/-- C6 (amended): the extraction fan-out creates exactly one extraction task
    per listed crawl task that completed with a success result *and carries a
    non-empty content snippet*; a listed sibling that failed (and likewise one
    whose successful crawl yielded no content) produces no extraction task. -/
theorem C6_extraction_fanout_per_content_sibling (db : Store) (ids : List Nat)
    (h : ∀ i ∈ ids, successfulCrawlWithContent db i = true) :
    (extractToolTriggerAll db ids).2.length = ids.length ∧
    extractionTaskCount (extractToolTriggerAll db ids).1
      = extractionTaskCount db + ids.length ∧
    (∀ j t, db.tasks.find? (fun u =>
        u.id = j ∧ u.agent_type = "web_crawler" ∧ u.task_type = "crawl_url") = some t →
      t.status = "failed" → trigger_extraction_task_for_crawl db j = (db, none)) := by
  obtain ⟨l1, l2⟩ := extractToolTriggerAll_spec ids db h
  refine ⟨l1, l2, ?_⟩
  intro j t hfind hfail
  unfold trigger_extraction_task_for_crawl
  rw [hfind]
  dsimp only
  rw [if_pos (show ¬ t.status = "completed" by rw [hfail]; decide)]

/-- Successful crawl task with empty page text used by the C6 counterexample. -/
def C6task : AgentTask :=
  { id := 1, agent_type := "web_crawler", task_type := "crawl_url",
    status := "completed", params := { url := some "http://empty.example" },
    result := some (ResultVal.crawlResult "success" "http://empty.example" "Empty" "" 0 "") }

/-- Store of the C6 counterexample. -/
def C6db : Store := { tasks := [C6task], nextTaskId := 2 }

/-- C6 counterexample: one successfully crawled sibling (task completed,
    result status `success`) whose crawl yielded empty text produces zero
    extraction tasks, not the one the claim requires: the trigger endpoint
    skips a success result whose `extracted_content_snippet` is empty
    (main.py lines 435-436). -/
theorem C6_counterexample :
    C6task.status = "completed" ∧
    C6task.result.map ResultVal.statusGet = some (some "success") ∧
    extractToolTriggerAll C6db [1] = (C6db, []) ∧
    (extractToolTriggerAll C6db [1]).2.length = 0 := by
  decide

/-- Successful crawl task with content used by the C6 witness. -/
def C6okTask : AgentTask :=
  { id := 1, agent_type := "web_crawler", task_type := "crawl_url",
    status := "completed", params := { url := some "http://full.example" },
    result := some (ResultVal.crawlResult "success" "http://full.example" "Full"
      "page body text" 14 "page body text") }

/-- Store of the C6 witness. -/
def C6okDb : Store := { tasks := [C6okTask], nextTaskId := 2 }

/-- Witness instantiating the amended C6 at one content-bearing successful
    crawl sibling. -/
theorem C6_witness :
    (extractToolTriggerAll C6okDb [1]).2.length = 1 ∧
    extractionTaskCount (extractToolTriggerAll C6okDb [1]).1
      = extractionTaskCount C6okDb + 1 ∧
    (∀ j t, C6okDb.tasks.find? (fun u =>
        u.id = j ∧ u.agent_type = "web_crawler" ∧ u.task_type = "crawl_url") = some t →
      t.status = "failed" → trigger_extraction_task_for_crawl C6okDb j = (C6okDb, none)) :=
  C6_extraction_fanout_per_content_sibling C6okDb [1] (by decide)

/- ------------------------------------------------------------------ -/
/- Shared dispatcher-walk lemmas                                      -/
/- ------------------------------------------------------------------ -/

theorem findTask_modifyTask_self (db : Store) (i : Nat) (f : AgentTask → AgentTask)
    (hid : ∀ t, (f t).id = t.id) (t : AgentTask) (hf : findTask db i = some t) :
    findTask (modifyTask db i f) i = some (f t) := by
  rw [findTask_modifyTask db i i f hid, hf]
  have hti : t.id = i := by simpa using List.find?_some hf
  simp [hti]

theorem foldl_query_skip (q : String) :
    ∀ (l : List SearchQuery) (acc : Option SearchQuery),
      (∀ sq ∈ l, sq.query_text ≠ q) →
      l.foldl (fun acc sq =>
        if sq.query_text = q then
          match acc with
          | none => some sq
          | some b => if b.search_date < sq.search_date then some sq else acc
        else acc) acc = acc := by
  intro l
  induction l with
  | nil => intro acc _; rfl
  | cons a l ih =>
    intro acc h
    rw [List.foldl_cons, if_neg (h a (List.mem_cons_self a l))]
    exact ih acc (fun sq hm => h sq (List.mem_cons_of_mem a hm))

theorem mostRecentQuery_eq_none (db : Store) (q : String)
    (h : ∀ sq ∈ db.searchQueries, sq.query_text ≠ q) :
    mostRecentQuery db q = none :=
  foldl_query_skip q db.searchQueries none h

/- ------------------------------------------------------------------ -/
/- C10                                                                -/
/- ------------------------------------------------------------------ -/

/-- C10: a `web_search` task whose `query` matches no stored `SearchQuery`
    row ends `failed` with an error naming the missing record, and no search
    results are persisted. -/
theorem C10_search_fails_without_query_record (env : Env) (now : Nat) (db : Store)
    (task_id : Nat) (task : AgentTask) (q : String)
    (hf : findTask db task_id = some task)
    (hs : task.status = "pending") (hr : task.result = none)
    (ha : task.agent_type = "search") (htt : task.task_type = "web_search")
    (hq : task.params.query = some q) (hqne : q ≠ "")
    (hkey : env.tavilyApiKey = true)
    (hnone : ∀ sq ∈ db.searchQueries, sq.query_text ≠ q) :
    (∃ t1, findTask (process_task env now db task_id) task_id = some t1 ∧
      t1.status = "failed" ∧
      t1.error = some ("SearchQuery record not found for query: \x27" ++ q ++ "\x27") ∧
      t1.result = none) ∧
    (process_task env now db task_id).searchResults = db.searchResults := by
  have hid1 : ∀ t : AgentTask,
      (({ t with status := "running", started_at := some now } : AgentTask)).id = t.id :=
    fun _ => rfl
  have hne : ¬ (task.status = "completed" ∨ task.status = "failed") := by
    rw [hs]; decide
  unfold process_task
  rw [hf]
  dsimp only
  rw [if_neg hne]
  have hmr : mostRecentQuery (modifyTask db task_id
      (fun t => { t with status := "running", started_at := some now })) q = none := by
    apply mostRecentQuery_eq_none
    exact hnone
  have hroute : routeAgent env
      ⟨modifyTask db task_id (fun t => { t with status := "running", started_at := some now }),
       modifyTask db task_id (fun t => { t with status := "running", started_at := some now })⟩
      { task with status := "running", started_at := some now }
      = Except.error ("SearchQuery record not found for query: \x27" ++ q ++ "\x27",
          setTaskError
            ⟨modifyTask db task_id (fun t => { t with status := "running", started_at := some now }),
             modifyTask db task_id (fun t => { t with status := "running", started_at := some now })⟩
            ({ task with status := "running", started_at := some now } : AgentTask).id
            ("Search failed: " ++ ("SearchQuery record not found for query: \x27" ++ q ++ "\x27"))) := by
    unfold routeAgent
    rw [if_neg (show ¬ ({ task with status := "running", started_at := some now } : AgentTask).agent_type = "orchestration" by rw [show ({ task with status := "running", started_at := some now } : AgentTask).agent_type = task.agent_type from rfl, ha]; decide)]
    rw [if_neg (show ¬ ({ task with status := "running", started_at := some now } : AgentTask).agent_type = "data_ingestion" by rw [show ({ task with status := "running", started_at := some now } : AgentTask).agent_type = task.agent_type from rfl, ha]; decide)]
    rw [if_pos (show ({ task with status := "running", started_at := some now } : AgentTask).agent_type = "search" by rw [show ({ task with status := "running", started_at := some now } : AgentTask).agent_type = task.agent_type from rfl, ha])]
    unfold searchAgent_process_task
    rw [if_pos (show ({ task with status := "running", started_at := some now } : AgentTask).task_type = "web_search" by rw [show ({ task with status := "running", started_at := some now } : AgentTask).task_type = task.task_type from rfl, htt])]
    have hws : web_search env
        ⟨modifyTask db task_id (fun t => { t with status := "running", started_at := some now }),
         modifyTask db task_id (fun t => { t with status := "running", started_at := some now })⟩
        ({ task with status := "running", started_at := some now } : AgentTask).params
        = Except.error ("SearchQuery record not found for query: \x27" ++ q ++ "\x27") := by
      unfold web_search
      rw [show ({ task with status := "running", started_at := some now } : AgentTask).params = task.params from rfl, hq]
      rw [if_neg (show ¬ (¬ truthyS (some q) = true) by simp [truthyS, hqne])]
      rw [if_neg (show ¬ env.tavilyApiKey = false by rw [hkey]; decide)]
      dsimp only [Option.getD_some]
      rw [hmr]
    rw [hws]
  rw [hroute]
  dsimp only [Session.rollbackS, setTaskError, Session.modifyP]
  have hfind1 : findTask (modifyTask db task_id
      (fun t => { t with status := "running", started_at := some now })) task_id
      = some ({ task with status := "running", started_at := some now } : AgentTask) :=
    findTask_modifyTask_self db task_id _ hid1 task hf
  rw [hfind1]
  dsimp only
  constructor
  · have hfin := findTask_modifyTask_self _ task_id
      (fun t =>
        { t with
          status := "failed",
          error := some ("SearchQuery record not found for query: \x27" ++ q ++ "\x27"),
          completed_at := some now })
      (fun _ => rfl) _ hfind1
    exact ⟨_, hfin, rfl, rfl, hr⟩
  · rfl

/-- Store for the C10 witness: a pending `web_search` task and no
    `SearchQuery` rows at all. -/
def C10db : Store :=
  { tasks := [{ id := 1, agent_type := "search", task_type := "web_search",
                status := "pending", params := { query := some "Acme Inc" } }] }

/-- Environment for the C10 witness (API key configured). -/
def C10env : Env := { tavilyApiKey := true }

/-- Witness instantiating C10 at a store holding no matching `SearchQuery`. -/
theorem C10_witness :
    (∃ t1, findTask (process_task C10env 3 C10db 1) 1 = some t1 ∧
      t1.status = "failed" ∧
      t1.error = some ("SearchQuery record not found for query: \x27" ++ "Acme Inc" ++ "\x27") ∧
      t1.result = none) ∧
    (process_task C10env 3 C10db 1).searchResults = C10db.searchResults :=
  C10_search_fails_without_query_record C10env 3 C10db 1
    { id := 1, agent_type := "search", task_type := "web_search",
      status := "pending", params := { query := some "Acme Inc" } }
    "Acme Inc" (by decide) rfl rfl rfl rfl rfl (by decide) rfl (by decide)

/- ------------------------------------------------------------------ -/
/- C9                                                                 -/
/- ------------------------------------------------------------------ -/

theorem routeAgent_web_crawler (env : Env) (ses : Session) (task : AgentTask)
    (ha : task.agent_type = "web_crawler") :
    routeAgent env ses task = webCrawler_process_task env ses task := by
  unfold routeAgent
  rw [if_neg (show ¬ task.agent_type = "orchestration" by rw [ha]; decide),
      if_neg (show ¬ task.agent_type = "data_ingestion" by rw [ha]; decide),
      if_neg (show ¬ task.agent_type = "search" by rw [ha]; decide),
      if_pos ha]

theorem crawl_ok_success (env : Env) (params : Params) (r : ResultVal)
    (h : crawl_url_playwright env params = Except.ok r) :
    r.statusGet = some "success" := by
  unfold crawl_url_playwright at h
  by_cases hu : ¬ truthyS params.url = true
  · rw [if_pos hu] at h; cases h
  · rw [if_neg hu] at h
    dsimp only at h
    rcases hcp : env.crawlPage (params.url.getD "") with e | page
    · rw [hcp] at h; cases h
    · rw [hcp] at h
      dsimp only at h
      injection h with h1
      rw [← h1]
      rfl

theorem findSR_map_processed (rid : Nat) : ∀ (l : List SearchResult),
    (l.map (fun r => if r.id = rid then { r with is_processed := true } else r)).find?
        (fun r => r.id = rid)
      = (l.find? (fun r => r.id = rid)).map (fun r => { r with is_processed := true }) := by
  intro l
  induction l with
  | nil => rfl
  | cons a l ih =>
    simp only [List.map_cons]
    by_cases h : a.id = rid
    · rw [List.find?_cons_of_pos _ (by simp [h]),
          List.find?_cons_of_pos _ (by simpa using h)]
      simp [h]
    · rw [List.find?_cons_of_neg _ (by simp [h]),
          List.find?_cons_of_neg _ (by simpa using h), ih]

theorem mkCrawlTasks_created_params : ∀ (l : List SearchResult) (db : Store),
    (∀ t ∈ db.tasks, t.id < db.nextTaskId) →
    ∀ ct ∈ (mkCrawlTasks db l).2, ∃ r ∈ l, ct.params.search_result_id = some r.id := by
  intro l
  induction l with
  | nil => intro db _ ct hct; simp [mkCrawlTasks] at hct
  | cons r rest ih =>
    intro db hwf ct hct
    unfold mkCrawlTasks at hct
    dsimp only at hct
    have hnewfind : findTask (addTaskRecord db "web_crawler" "crawl_url"
        { url := some r.url, search_result_id := some r.id } "pending").1
        (addTaskRecord db "web_crawler" "crawl_url"
          { url := some r.url, search_result_id := some r.id } "pending").2
        = some { id := db.nextTaskId, agent_type := "web_crawler", task_type := "crawl_url",
                 status := "pending",
                 params := { url := some r.url, search_result_id := some r.id } } := by
      unfold addTaskRecord findTask
      dsimp only
      rw [List.find?_append]
      rw [List.find?_eq_none.mpr (fun t ht => by
        simp only [decide_eq_true_eq]
        exact Nat.ne_of_lt (hwf t ht))]
      simp
    rw [hnewfind] at hct
    rcases List.mem_append.mp hct with hh | ht
    · refine ⟨r, List.mem_cons_self r rest, ?_⟩
      have : ct = { id := db.nextTaskId, agent_type := "web_crawler", task_type := "crawl_url",
                    status := "pending",
                    params := { url := some r.url, search_result_id := some r.id } } := by
        simpa using hh
      rw [this]
    · have hwf1 : ∀ t ∈ (addTaskRecord db "web_crawler" "crawl_url"
          { url := some r.url, search_result_id := some r.id } "pending").1.tasks,
          t.id < (addTaskRecord db "web_crawler" "crawl_url"
            { url := some r.url, search_result_id := some r.id } "pending").1.nextTaskId := by
        intro t htm
        unfold addTaskRecord at htm ⊢
        dsimp only at htm ⊢
        rcases List.mem_append.mp htm with h1 | h1
        · exact Nat.lt_succ_of_lt (hwf t h1)
        · have : t = { id := db.nextTaskId, agent_type := "web_crawler",
                       task_type := "crawl_url", status := "pending",
                       params := { url := some r.url, search_result_id := some r.id } } := by
            simpa using h1
          rw [this]
          exact Nat.lt_succ_self _
      obtain ⟨r1, hr1, hp1⟩ := ih _ hwf1 ct ht
      exact ⟨r1, List.mem_cons_of_mem r hr1, hp1⟩

theorem webCrawler_process_shape (env : Env) (db1 : Store) (task1 : AgentTask)
    (rid : Nat) (sr : SearchResult)
    (htt : task1.task_type = "crawl_url")
    (hsr1 : task1.params.search_result_id = some rid) (hrid : rid ≠ 0)
    (hfindsr : findSearchResult db1 rid = some sr) :
    (∃ ses1 r, webCrawler_process_task env ⟨db1, db1⟩ task1 = Except.ok ses1 ∧
        ses1.pending.tasks = db1.tasks.map
          (fun t => if t.id = task1.id then { t with result := some r } else t) ∧
        ses1.pending.searchResults = db1.searchResults.map
          (fun x => if x.id = rid then { x with is_processed := true } else x) ∧
        ses1.pending.nextTaskId = db1.nextTaskId) ∨
    (∃ e ses2, webCrawler_process_task env ⟨db1, db1⟩ task1 = Except.error (e, ses2) ∧
        ses2.committed.tasks = db1.tasks.map
          (fun t => if t.id = task1.id then { t with error := some ("Crawl failed: " ++ e) } else t) ∧
        ses2.committed.searchResults = db1.searchResults.map
          (fun x => if x.id = rid then { x with is_processed := true } else x) ∧
        ses2.committed.nextTaskId = db1.nextTaskId) := by
  have htru : truthyN task1.params.search_result_id = true := by
    rw [hsr1]; simp [truthyN, hrid]
  have hgetd : task1.params.search_result_id.getD 0 = rid := by rw [hsr1]; rfl
  unfold webCrawler_process_task
  rw [if_pos htt]
  rcases hcp : crawl_url_playwright env task1.params with e | r
  · right
    dsimp only
    rw [if_pos htru, hgetd]
    have hx : findSearchResult (setTaskError ⟨db1, db1⟩ task1.id
        ("Crawl failed: " ++ e)).pending rid = some sr := hfindsr
    unfold update_search_result_processed
    rw [hx]
    exact ⟨e, _, rfl, rfl, rfl, rfl⟩
  · left
    have hst := crawl_ok_success env task1.params r hcp
    dsimp only
    rw [if_pos ⟨hst, htru⟩, hgetd]
    have hx : findSearchResult (setTaskResult ⟨db1, db1⟩ task1.id r).pending rid
        = some sr := hfindsr
    unfold update_search_result_processed
    rw [hx]
    exact ⟨_, r, rfl, rfl, rfl, rfl⟩

theorem exists_id_of_mem_condMap (l : List AgentTask) (i : Nat) (f : AgentTask → AgentTask)
    (hfid : ∀ u, (f u).id = u.id) :
    ∀ t ∈ l.map (fun v => if v.id = i then f v else v), ∃ t0 ∈ l, t.id = t0.id := by
  intro t ht
  obtain ⟨t0, ht0, rfl⟩ := List.mem_map.mp ht
  refine ⟨t0, ht0, ?_⟩
  by_cases h : t0.id = i
  · rw [if_pos h, hfid]
  · rw [if_neg h]

/-- C9: a `crawl_url` task carrying a `search_result_id` flips the
    originating search result's `is_processed` flag to `true` whatever the
    crawl outcome (success or failure), so a subsequent crawl fan-out trigger
    — which selects only unprocessed results — never creates a task
    referencing that search result again. -/
theorem C9_crawl_marks_result_processed_both_ways (env : Env) (now : Nat)
    (db : Store) (task_id : Nat) (task : AgentTask) (rid : Nat) (sr : SearchResult)
    (hf : findTask db task_id = some task)
    (hs : task.status = "pending")
    (ha : task.agent_type = "web_crawler") (htt : task.task_type = "crawl_url")
    (hsr : task.params.search_result_id = some rid) (hrid : rid ≠ 0)
    (hfind : findSearchResult db rid = some sr)
    (hwf : ∀ t ∈ db.tasks, t.id < db.nextTaskId) :
    (findSearchResult (process_task env now db task_id) rid).map (fun r => r.is_processed)
      = some true ∧
    (∀ qid, ∀ ct ∈ (trigger_crawl_tasks_for_search (process_task env now db task_id) qid).2,
      ¬ ct.params.search_result_id = some rid) := by
  have hne : ¬ (task.status = "completed" ∨ task.status = "failed") := by
    rw [hs]; decide
  have hshape :
      (∀ t ∈ (process_task env now db task_id).tasks, ∃ t0 ∈ db.tasks, t.id = t0.id) ∧
      (process_task env now db task_id).nextTaskId = db.nextTaskId ∧
      (process_task env now db task_id).searchResults
        = db.searchResults.map
            (fun x => if x.id = rid then { x with is_processed := true } else x) := by
    unfold process_task
    rw [hf]
    dsimp only
    rw [if_neg hne]
    have ha1 : ({ task with status := "running", started_at := some now } : AgentTask).agent_type
        = "web_crawler" := ha
    have htt1 : ({ task with status := "running", started_at := some now } : AgentTask).task_type
        = "crawl_url" := htt
    have hsr1 : ({ task with status := "running", started_at := some now } : AgentTask).params.search_result_id
        = some rid := hsr
    have hfind1 : findSearchResult (modifyTask db task_id
        (fun t => { t with status := "running", started_at := some now })) rid = some sr := hfind
    have hfindt1 : findTask (modifyTask db task_id
        (fun t => { t with status := "running", started_at := some now })) task_id
        = some ({ task with status := "running", started_at := some now } : AgentTask) :=
      findTask_modifyTask_self db task_id
        (fun t => { t with status := "running", started_at := some now })
        (fun _ => rfl) task hf
    rw [routeAgent_web_crawler env _ _ ha1]
    rcases webCrawler_process_shape env _ _ rid sr htt1 hsr1 hrid hfind1 with
      ⟨ses1, r, hrun, htk, hsrr, hnx⟩ | ⟨e, ses2, hrun, htk, hsrr, hnx⟩
    · rw [hrun]
      dsimp only
      rw [if_neg (show ¬ ({ task with status := "running", started_at := some now } : AgentTask).agent_type = "orchestration" by rw [ha1]; decide)]
      have hfindt2 : findTask ses1.pending task_id
          = some ({ ({ task with status := "running", started_at := some now } : AgentTask) with
              result := some r }) := by
        unfold findTask
        rw [htk, find?_map_id_pres _
              ({ task with status := "running", started_at := some now } : AgentTask).id task_id
              (fun t => { t with result := some r }) (fun _ => rfl)]
        have : findTask (modifyTask db task_id
            (fun t => { t with status := "running", started_at := some now })) task_id
            = some ({ task with status := "running", started_at := some now } : AgentTask) := hfindt1
        unfold findTask at this
        rw [this]
        have hid : ({ task with status := "running", started_at := some now } : AgentTask).id
            = task_id := by simpa using List.find?_some hf
        simp [hid]
      rw [hfindt2]
      dsimp only
      refine ⟨?_, ?_, ?_⟩
      · intro t ht
        unfold modifyTask at ht
        dsimp only at ht
        obtain ⟨t1, ht1, e1⟩ := exists_id_of_mem_condMap ses1.pending.tasks task_id
          (fun u =>
            { u with status := "completed", completed_at := some now, result := some r })
          (fun _ => rfl) t ht
        rw [htk] at ht1
        obtain ⟨t2, ht2, e2⟩ := exists_id_of_mem_condMap _
          ({ task with status := "running", started_at := some now } : AgentTask).id
          (fun u => { u with result := some r }) (fun _ => rfl) t1 ht1
        unfold modifyTask at ht2
        dsimp only at ht2
        obtain ⟨t3, ht3, e3⟩ := exists_id_of_mem_condMap db.tasks task_id
          (fun u => { u with status := "running", started_at := some now })
          (fun _ => rfl) t2 ht2
        exact ⟨t3, ht3, by rw [e1, e2, e3]⟩
      · show (modifyTask ses1.pending task_id _).nextTaskId = _
        unfold modifyTask
        exact hnx
      · show (modifyTask ses1.pending task_id _).searchResults = _
        unfold modifyTask
        exact hsrr
    · rw [hrun]
      dsimp only [Session.rollbackS]
      have hfindt2 : findTask ses2.committed task_id
          = some ({ ({ task with status := "running", started_at := some now } : AgentTask) with
              error := some ("Crawl failed: " ++ e) }) := by
        unfold findTask
        rw [htk, find?_map_id_pres _
              ({ task with status := "running", started_at := some now } : AgentTask).id task_id
              (fun t => { t with error := some ("Crawl failed: " ++ e) }) (fun _ => rfl)]
        have : findTask (modifyTask db task_id
            (fun t => { t with status := "running", started_at := some now })) task_id
            = some ({ task with status := "running", started_at := some now } : AgentTask) := hfindt1
        unfold findTask at this
        rw [this]
        have hid : ({ task with status := "running", started_at := some now } : AgentTask).id
            = task_id := by simpa using List.find?_some hf
        simp [hid]
      rw [hfindt2]
      dsimp only
      refine ⟨?_, ?_, ?_⟩
      · intro t ht
        unfold modifyTask at ht
        dsimp only at ht
        obtain ⟨t1, ht1, e1⟩ := exists_id_of_mem_condMap ses2.committed.tasks task_id
          (fun u =>
            { u with status := "failed", error := some e, completed_at := some now })
          (fun _ => rfl) t ht
        rw [htk] at ht1
        obtain ⟨t2, ht2, e2⟩ := exists_id_of_mem_condMap _
          ({ task with status := "running", started_at := some now } : AgentTask).id
          (fun u => { u with error := some ("Crawl failed: " ++ e) }) (fun _ => rfl) t1 ht1
        unfold modifyTask at ht2
        dsimp only at ht2
        obtain ⟨t3, ht3, e3⟩ := exists_id_of_mem_condMap db.tasks task_id
          (fun u => { u with status := "running", started_at := some now })
          (fun _ => rfl) t2 ht2
        exact ⟨t3, ht3, by rw [e1, e2, e3]⟩
      · show (modifyTask ses2.committed task_id _).nextTaskId = _
        unfold modifyTask
        exact hnx
      · show (modifyTask ses2.committed task_id _).searchResults = _
        unfold modifyTask
        exact hsrr
  obtain ⟨htasks, hnext, hsrch⟩ := hshape
  constructor
  · unfold findSearchResult
    rw [hsrch, findSR_map_processed]
    unfold findSearchResult at hfind
    rw [hfind]
    rfl
  · intro qid ct hct
    unfold trigger_crawl_tasks_for_search at hct
    rcases hq : (process_task env now db task_id).searchQueries.find?
        (fun x => x.id = qid) with _ | sq
    · rw [hq] at hct
      simp at hct
    · rw [hq] at hct
      dsimp only at hct
      have hwf2 : ∀ t ∈ (process_task env now db task_id).tasks,
          t.id < (process_task env now db task_id).nextTaskId := by
        intro t htm
        obtain ⟨t0, ht0, heq⟩ := htasks t htm
        rw [heq, hnext]
        exact hwf t0 ht0
      obtain ⟨r, hrmem, hparams⟩ :=
        mkCrawlTasks_created_params _ _ hwf2 ct hct
      have hrfil := List.mem_filter.mp hrmem
      have hproc : r.is_processed = false := by
        have := hrfil.2
        simp only [decide_eq_true_eq] at this
        exact this.2
      have hmem2 : r ∈ (process_task env now db task_id).searchResults := hrfil.1
      rw [hsrch] at hmem2
      obtain ⟨r0, hr0, hr0eq⟩ := List.mem_map.mp hmem2
      by_cases h0 : r0.id = rid
      · rw [if_pos h0] at hr0eq
        rw [← hr0eq] at hproc
        simp at hproc
      · rw [if_neg h0] at hr0eq
        rw [hparams, ← hr0eq]
        simp [h0]

/-- Store for the C9 witness: one unprocessed search result and a pending
    crawl task referencing it. -/
def C9db : Store :=
  { tasks := [{ id := 1, agent_type := "web_crawler", task_type := "crawl_url",
                status := "pending",
                params := { url := some "http://x.example", search_result_id := some 7 } }],
    searchQueries := [{ id := 3, query_text := "Acme" }],
    searchResults := [{ id := 7, query_id := 3, url := "http://x.example" }],
    nextTaskId := 2 }

/-- Environment for the C9 witness: navigation fails, exercising the
    crawl-failure path. -/
def C9env : Env := { crawlPage := fun _ => Except.error "net::ERR_FAILED" }

/-- Witness instantiating C9 at a crawl that fails. -/
theorem C9_witness :
    (findSearchResult (process_task C9env 4 C9db 1) 7).map (fun r => r.is_processed)
      = some true ∧
    (∀ qid, ∀ ct ∈ (trigger_crawl_tasks_for_search (process_task C9env 4 C9db 1) qid).2,
      ¬ ct.params.search_result_id = some 7) :=
  C9_crawl_marks_result_processed_both_ways C9env 4 C9db 1
    { id := 1, agent_type := "web_crawler", task_type := "crawl_url",
      status := "pending",
      params := { url := some "http://x.example", search_result_id := some 7 } }
    7 { id := 7, query_id := 3, url := "http://x.example" }
    (by decide) rfl rfl rfl rfl (by decide) (by decide) (by decide)

/- ------------------------------------------------------------------ -/
/- C3                                                                 -/
/- ------------------------------------------------------------------ -/

theorem routeAgent_orchestration (env : Env) (ses : Session) (task : AgentTask)
    (ha : task.agent_type = "orchestration") :
    routeAgent env ses task =
      (if task.task_type = "generate_full_profile" then handle_generate_full_profile ses task
       else Except.error ("Unknown orchestration task type: " ++ task.task_type, ses)) := by
  unfold routeAgent
  rw [if_pos ha]

theorem handle_gfp_shape (ses : Session) (task1 : AgentTask) (cid : Nat) (name : String)
    (hcid : task1.params.company_id = some cid) (hc0 : cid ≠ 0)
    (hname : task1.params.company_name = some name) (hn0 : name ≠ "") :
    ∃ ses4, handle_generate_full_profile ses task1 = Except.ok ses4 ∧
      ses4.committed = ses4.pending ∧
      ses4.pending.tasks
        = ((ses.pending.tasks ++
            [({ id := ses.pending.nextTaskId, agent_type := "search", task_type := "web_search",
                status := "pending",
                params := { query := some name, target_entity := some name,
                            max_results := some 5 } } : AgentTask)]).map
            (fun v : AgentTask => if v.id = task1.id then
                { v with result := some (ResultVal.subTaskCreated ses.pending.nextTaskId) }
              else v)).map
            (fun v : AgentTask => if v.id = task1.id then { v with status := "running" } else v) := by
  have hguard : ¬ (¬ truthyN task1.params.company_id = true ∨
      ¬ truthyS task1.params.company_name = true) := by
    rw [hcid, hname]
    simp [truthyN, truthyS, hc0, hn0]
  unfold handle_generate_full_profile
  rw [if_neg hguard]
  dsimp only
  rw [show task1.params.company_name.getD "" = name from by rw [hname]; rfl]
  by_cases hq : (ses.pending.searchQueries.find? (fun sq => sq.query_text = name)).isSome = true
  · rw [if_pos hq]
    exact ⟨_, rfl, rfl, rfl⟩
  · rw [if_neg hq]
    exact ⟨_, rfl, rfl, rfl⟩

/-- C3: processing an orchestration `generate_full_profile` task with valid
    `company_id`/`company_name` creates exactly one new task record — a
    pending `search`/`web_search` child carrying the company name as query —
    records the child's id in the parent's result payload, and leaves the
    parent's status `running` (no terminal transition by the dispatcher). -/
theorem C3_generate_full_profile_meta (env : Env) (now : Nat) (db : Store)
    (task_id : Nat) (task : AgentTask) (cid : Nat) (name : String)
    (hf : findTask db task_id = some task)
    (hs : task.status = "pending")
    (ha : task.agent_type = "orchestration") (htt : task.task_type = "generate_full_profile")
    (hcid : task.params.company_id = some cid) (hc0 : cid ≠ 0)
    (hname : task.params.company_name = some name) (hn0 : name ≠ "")
    (hwf : ∀ t ∈ db.tasks, t.id < db.nextTaskId) :
    (process_task env now db task_id).tasks.length = db.tasks.length + 1 ∧
    (∃ t1, findTask (process_task env now db task_id) task_id = some t1 ∧
      t1.status = "running" ∧ t1.result = some (ResultVal.subTaskCreated db.nextTaskId)) ∧
    (∃ ct, findTask (process_task env now db task_id) db.nextTaskId = some ct ∧
      ct.agent_type = "search" ∧ ct.task_type = "web_search" ∧ ct.status = "pending" ∧
      ct.params = { query := some name, target_entity := some name, max_results := some 5 }) := by
  have hne : ¬ (task.status = "completed" ∨ task.status = "failed") := by
    rw [hs]; decide
  have htid : task.id = task_id := by simpa using List.find?_some hf
  have htid_lt : task_id < db.nextTaskId := by
    rw [← htid]
    exact hwf task (List.mem_of_find?_eq_some hf)
  unfold process_task
  rw [hf]
  dsimp only
  rw [if_neg hne]
  set T : AgentTask := { task with status := "running", started_at := some now } with hT
  set D1 : Store := modifyTask db task_id
    (fun t => { t with status := "running", started_at := some now }) with hD1
  have ha1 : T.agent_type = "orchestration" := ha
  have htt1 : T.task_type = "generate_full_profile" := htt
  have hcid1 : T.params.company_id = some cid := hcid
  have hname1 : T.params.company_name = some name := hname
  have hid1 : T.id = task_id := htid
  have hD1next : D1.nextTaskId = db.nextTaskId := by rw [hD1]; rfl
  have hfindt1 : findTask D1 task_id = some T := by
    rw [hD1, hT]
    exact findTask_modifyTask_self db task_id
      (fun t => { t with status := "running", started_at := some now })
      (fun _ => rfl) task hf
  have hDfind_none : D1.tasks.find? (fun t => t.id = db.nextTaskId) = none := by
    rw [List.find?_eq_none]
    intro t ht
    rw [hD1] at ht
    unfold modifyTask at ht
    dsimp only at ht
    obtain ⟨t0, ht0, e0⟩ := exists_id_of_mem_condMap db.tasks task_id
      (fun u => { u with status := "running", started_at := some now }) (fun _ => rfl) t ht
    simp only [decide_eq_true_eq]
    rw [e0]
    exact Nat.ne_of_lt (hwf t0 ht0)
  rw [routeAgent_orchestration env _ _ ha1, if_pos htt1]
  obtain ⟨ses4, hrun, hcp, htk⟩ := handle_gfp_shape ⟨D1, D1⟩ T cid name hcid1 hc0 hname1 hn0
  have hsp : (⟨D1, D1⟩ : Session).pending = D1 := rfl
  rw [hsp] at htk
  rw [hrun]
  dsimp only
  rw [if_pos ha1, hcp]
  refine ⟨?_, ?_, ?_⟩
  · rw [htk]
    simp only [List.length_map, List.length_append, List.length_cons, List.length_nil]
    rw [hD1]
    simp [modifyTask]
  · unfold findTask
    rw [htk]
    rw [find?_map_id_pres _ T.id task_id (fun v => { v with status := "running" })
        (fun _ => rfl)]
    rw [find?_map_id_pres _ T.id task_id
        (fun v => { v with result := some (ResultVal.subTaskCreated D1.nextTaskId) })
        (fun _ => rfl)]
    rw [List.find?_append]
    have hfind1 : D1.tasks.find? (fun t => t.id = task_id) = some T := hfindt1
    rw [hfind1]
    have hor : (some T).or (List.find? (fun t => t.id = task_id)
        [({ id := D1.nextTaskId, agent_type := "search", task_type := "web_search",
            status := "pending",
            params := { query := some name, target_entity := some name,
                        max_results := some 5 } } : AgentTask)]) = some T := rfl
    rw [hor]
    dsimp only [Option.map]
    rw [if_pos (show T.id = task.id from rfl)]
    rw [if_pos (show ({ T with
        result := some (ResultVal.subTaskCreated D1.nextTaskId) } : AgentTask).id = task.id
      from rfl)]
    exact ⟨_, rfl, rfl, rfl⟩
  · unfold findTask
    rw [htk]
    rw [find?_map_id_pres _ T.id db.nextTaskId (fun v => { v with status := "running" })
        (fun _ => rfl)]
    rw [find?_map_id_pres _ T.id db.nextTaskId
        (fun v => { v with result := some (ResultVal.subTaskCreated D1.nextTaskId) })
        (fun _ => rfl)]
    rw [List.find?_append, hDfind_none]
    have hCfind : List.find? (fun t => t.id = db.nextTaskId)
        [({ id := D1.nextTaskId, agent_type := "search", task_type := "web_search",
            status := "pending",
            params := { query := some name, target_entity := some name,
                        max_results := some 5 } } : AgentTask)]
        = some ({ id := D1.nextTaskId, agent_type := "search", task_type := "web_search",
                  status := "pending",
                  params := { query := some name, target_entity := some name,
                              max_results := some 5 } } : AgentTask) := by
      rw [hD1next]
      simp [List.find?, hD1next]
    rw [show ((none : Option AgentTask).or (List.find? (fun t => t.id = db.nextTaskId)
        [({ id := D1.nextTaskId, agent_type := "search", task_type := "web_search",
            status := "pending",
            params := { query := some name, target_entity := some name,
                        max_results := some 5 } } : AgentTask)]))
        = List.find? (fun t => t.id = db.nextTaskId)
        [({ id := D1.nextTaskId, agent_type := "search", task_type := "web_search",
            status := "pending",
            params := { query := some name, target_entity := some name,
                        max_results := some 5 } } : AgentTask)] from rfl]
    rw [hCfind]
    have hCne : ¬ (({ id := D1.nextTaskId, agent_type := "search",
                      task_type := "web_search", status := "pending",
                      params := { query := some name, target_entity := some name,
                                  max_results := some 5 } } : AgentTask).id = task.id) := by
      intro h
      rw [htid] at h
      have h2 : db.nextTaskId = task_id := by rw [← hD1next]; exact h
      exact Nat.ne_of_lt htid_lt h2.symm
    dsimp only [Option.map]
    rw [if_neg hCne]
    rw [if_neg hCne]
    refine ⟨_, rfl, rfl, rfl, rfl, rfl⟩

/-- Store for the C3 witness: one pending orchestration master task. -/
def C3db : Store :=
  { tasks := [{ id := 1, agent_type := "orchestration", task_type := "generate_full_profile",
                status := "pending",
                params := { company_id := some 5, company_name := some "Acme" } }],
    nextTaskId := 2 }

/-- Witness instantiating C3 at a concrete master task. -/
theorem C3_witness :
    (process_task {} 6 C3db 1).tasks.length = C3db.tasks.length + 1 ∧
    (∃ t1, findTask (process_task {} 6 C3db 1) 1 = some t1 ∧
      t1.status = "running" ∧ t1.result = some (ResultVal.subTaskCreated C3db.nextTaskId)) ∧
    (∃ ct, findTask (process_task {} 6 C3db 1) C3db.nextTaskId = some ct ∧
      ct.agent_type = "search" ∧ ct.task_type = "web_search" ∧ ct.status = "pending" ∧
      ct.params = { query := some "Acme", target_entity := some "Acme",
                    max_results := some 5 }) :=
  C3_generate_full_profile_meta {} 6 C3db 1
    { id := 1, agent_type := "orchestration", task_type := "generate_full_profile",
      status := "pending",
      params := { company_id := some 5, company_name := some "Acme" } }
    5 "Acme" (by decide) rfl rfl rfl rfl (by decide) rfl (by decide) (by decide)

/- ------------------------------------------------------------------ -/
/- C2: per-agent task-list preservation lemmas                        -/
/- ------------------------------------------------------------------ -/

theorem storeTavilyResults_tasks : ∀ (rs : List TavilyResult) (db : Store) (qid r0 : Nat),
    (storeTavilyResults db qid r0 rs).tasks = db.tasks := by
  intro rs
  induction rs with
  | nil => intro db qid r0; rfl
  | cons r rest ih =>
    intro db qid r0
    unfold storeTavilyResults
    rw [ih]

theorem web_search_ok_tasks (env : Env) (ses : Session) (params : Params)
    (s1 : Session) (r : ResultVal)
    (h : web_search env ses params = Except.ok (s1, r)) :
    s1.pending.tasks = ses.pending.tasks := by
  unfold web_search at h
  by_cases h1 : ¬ truthyS params.query = true
  · rw [if_pos h1] at h; cases h
  · rw [if_neg h1] at h
    dsimp only at h
    by_cases h2 : env.tavilyApiKey = false
    · rw [if_pos h2] at h; cases h
    · rw [if_neg h2] at h
      rcases h3 : mostRecentQuery ses.pending (params.query.getD "") with _ | sq
      · rw [h3] at h; cases h
      · rw [h3] at h
        dsimp only at h
        rcases h4 : env.tavilyResponse (params.query.getD "") (params.max_results.getD 5)
            with _ | rs
        · rw [h4] at h
          injection h with h5
          injection h5 with h6 h7
          rw [← h6]
        · rw [h4] at h
          dsimp only at h
          injection h with h5
          injection h5 with h6 h7
          rw [← h6]
          show (setQueryResultCount (storeTavilyResults ses.pending sq.id 0 rs) sq.id
            rs.length).tasks = ses.pending.tasks
          unfold setQueryResultCount
          exact storeTavilyResults_tasks rs ses.pending sq.id 0

theorem update_srp_findTask_pending (s : Session) (rid : Nat) (b : Bool) (i : Nat) :
    findTask (update_search_result_processed s rid b).pending i = findTask s.pending i := by
  unfold update_search_result_processed
  rcases findSearchResult s.pending rid with _ | sr <;> rfl

theorem update_srp_findTask_committed (s : Session) (rid : Nat) (b : Bool) (i : Nat) :
    findTask (update_search_result_processed s rid b).committed i = findTask s.pending i ∨
    findTask (update_search_result_processed s rid b).committed i = findTask s.committed i := by
  unfold update_search_result_processed
  rcases findSearchResult s.pending rid with _ | sr
  · right; rfl
  · left; rfl

theorem store_extracted_data_ok_tasks (ses : Session) (params : Params)
    (s1 : Session) (r : ResultVal)
    (h : store_extracted_data ses params = Except.ok (s1, r)) :
    s1.pending.tasks = ses.pending.tasks := by
  unfold store_extracted_data at h
  by_cases h1 : (¬ truthyN params.company_id = true ∨ params.extracted_data.isNone = true)
  · rw [if_pos h1] at h; cases h
  · rw [if_neg h1] at h
    dsimp only at h
    rcases h2 : ses.pending.companies.find? (fun c => c.id = params.company_id.getD 0)
        with _ | c
    · rw [h2] at h
      injection h with h5
      injection h5 with h6 h7
      rw [← h6]
    · rw [h2] at h
      dsimp only at h
      rcases h3 : buildMetricRows (params.company_id.getD 0)
          (params.source_url.getD "Unknown Source")
          (params.extracted_data.getD {}).metrics with e | ms
      · rw [h3] at h; cases h
      · rw [h3] at h
        dsimp only at h
        injection h with h5
        injection h5 with h6 h7
        rw [← h6]; rfl

theorem store_company_overview_ok_tasks (ses : Session) (params : Params)
    (s1 : Session) (r : ResultVal)
    (h : store_company_overview ses params = Except.ok (s1, r)) :
    s1.pending.tasks = ses.pending.tasks := by
  unfold store_company_overview at h
  by_cases h1 : (¬ truthyN params.company_id = true ∨ params.overview.isNone = true)
  · rw [if_pos h1] at h; cases h
  · rw [if_neg h1] at h
    dsimp only at h
    rcases h2 : ses.pending.companies.find? (fun c => c.id = params.company_id.getD 0)
        with _ | c
    · rw [h2] at h
      injection h with h5
      injection h5 with h6 h7
      rw [← h6]
    · rw [h2] at h
      injection h with h5
      injection h5 with h6 h7
      rw [← h6]; rfl

theorem store_company_links_ok_tasks (ses : Session) (params : Params)
    (s1 : Session) (r : ResultVal)
    (h : store_company_links ses params = Except.ok (s1, r)) :
    s1.pending.tasks = ses.pending.tasks := by
  unfold store_company_links at h
  by_cases h1 : (¬ truthyN params.company_id = true ∨ params.links.isNone = true)
  · rw [if_pos h1] at h; cases h
  · rw [if_neg h1] at h
    dsimp only at h
    rcases h2 : ses.pending.companies.find? (fun c => c.id = params.company_id.getD 0)
        with _ | c
    · rw [h2] at h
      injection h with h5
      injection h5 with h6 h7
      rw [← h6]
    · rw [h2] at h
      dsimp only at h
      injection h with h5
      injection h5 with h6 h7
      rw [← h6]
      by_cases h3 : params.overwrite.getD false = true
      · rw [if_pos h3]; rfl
      · rw [if_neg h3]; rfl

theorem analyze_companies_ok_tasks (ses : Session) (params : Params)
    (s1 : Session) (r : ResultVal)
    (h : analyze_companies ses params = Except.ok (s1, r)) :
    s1.pending.tasks = ses.pending.tasks := by
  unfold analyze_companies at h
  by_cases h1 : ¬ truthyN params.strategy_id = true
  · rw [if_pos h1] at h; cases h
  · rw [if_neg h1] at h
    dsimp only at h
    rcases h2 : ses.pending.strategies.find? (fun s => s.id = params.strategy_id.getD 0)
        with _ | strat
    · rw [h2] at h; cases h
    · rw [h2] at h
      dsimp only at h
      injection h with h5
      injection h5 with h6 h7
      rw [← h6]; rfl

theorem setTaskResult_find (s1 : Session) (i : Nat) (r : ResultVal) (t : AgentTask)
    (hb : s1.pending.tasks.find? (fun u => u.id = i) = some t) :
    findTask (setTaskResult s1 i r).pending i = some { t with result := some r } := by
  unfold findTask setTaskResult Session.modifyP modifyTask
  dsimp only
  rw [find?_map_id_pres s1.pending.tasks i i (fun u => { u with result := some r })
    (fun _ => rfl), hb]
  have hti : t.id = i := by simpa using List.find?_some hb
  simp [hti]

theorem handle_gfp_ok_find (ses : Session) (task1 : AgentTask) (s1 : Session)
    (h : handle_generate_full_profile ses task1 = Except.ok s1) :
    s1.committed = s1.pending ∧
    ∀ t, findTask ses.pending task1.id = some t →
      findTask s1.pending task1.id
        = some { t with
                 status := "running",
                 result := some (ResultVal.subTaskCreated ses.pending.nextTaskId) } := by
  unfold handle_generate_full_profile at h
  by_cases hg : (¬ truthyN task1.params.company_id = true ∨
      ¬ truthyS task1.params.company_name = true)
  · rw [if_pos hg] at h; cases h
  · rw [if_neg hg] at h
    dsimp only at h
    by_cases hq : (ses.pending.searchQueries.find?
        (fun sq => sq.query_text = task1.params.company_name.getD "")).isSome = true
    · rw [if_pos hq] at h
      injection h with h1
      refine ⟨by rw [← h1]; rfl, ?_⟩
      intro t hft
      have htid : t.id = task1.id := by
        unfold findTask at hft
        simpa using List.find?_some hft
      unfold findTask at hft
      rw [← h1]
      show (List.map
          (fun v : AgentTask => if v.id = task1.id then { v with status := "running" } else v)
          (List.map
            (fun v : AgentTask => if v.id = task1.id then
                { v with result := some (ResultVal.subTaskCreated ses.pending.nextTaskId) }
              else v)
            (ses.pending.tasks ++
              [({ id := ses.pending.nextTaskId, agent_type := "search",
                  task_type := "web_search", status := "pending",
                  params := { query := some (task1.params.company_name.getD ""),
                              target_entity := some (task1.params.company_name.getD ""),
                              max_results := some 5 } } : AgentTask)]))).find?
          (fun u => u.id = task1.id)
        = some { t with
                 status := "running",
                 result := some (ResultVal.subTaskCreated ses.pending.nextTaskId) }
      rw [find?_map_id_pres _ task1.id task1.id
        (fun v => { v with status := "running" }) (fun _ => rfl)]
      rw [find?_map_id_pres _ task1.id task1.id
        (fun v => { v with result := some (ResultVal.subTaskCreated ses.pending.nextTaskId) })
        (fun _ => rfl)]
      rw [List.find?_append, hft]
      rw [show (some t).or (List.find? (fun u => u.id = task1.id)
        [({ id := ses.pending.nextTaskId, agent_type := "search",
            task_type := "web_search", status := "pending",
            params := { query := some (task1.params.company_name.getD ""),
                        target_entity := some (task1.params.company_name.getD ""),
                        max_results := some 5 } } : AgentTask)]) = some t from rfl]
      dsimp only [Option.map]
      rw [if_pos htid]
      rw [if_pos (show ({ t with
          result := some (ResultVal.subTaskCreated ses.pending.nextTaskId) } : AgentTask).id
          = task1.id from htid)]
    · rw [if_neg hq] at h
      injection h with h1
      refine ⟨by rw [← h1]; rfl, ?_⟩
      intro t hft
      have htid : t.id = task1.id := by
        unfold findTask at hft
        simpa using List.find?_some hft
      unfold findTask at hft
      rw [← h1]
      show (List.map
          (fun v : AgentTask => if v.id = task1.id then { v with status := "running" } else v)
          (List.map
            (fun v : AgentTask => if v.id = task1.id then
                { v with result := some (ResultVal.subTaskCreated ses.pending.nextTaskId) }
              else v)
            (ses.pending.tasks ++
              [({ id := ses.pending.nextTaskId, agent_type := "search",
                  task_type := "web_search", status := "pending",
                  params := { query := some (task1.params.company_name.getD ""),
                              target_entity := some (task1.params.company_name.getD ""),
                              max_results := some 5 } } : AgentTask)]))).find?
          (fun u => u.id = task1.id)
        = some { t with
                 status := "running",
                 result := some (ResultVal.subTaskCreated ses.pending.nextTaskId) }
      rw [find?_map_id_pres _ task1.id task1.id
        (fun v => { v with status := "running" }) (fun _ => rfl)]
      rw [find?_map_id_pres _ task1.id task1.id
        (fun v => { v with result := some (ResultVal.subTaskCreated ses.pending.nextTaskId) })
        (fun _ => rfl)]
      rw [List.find?_append, hft]
      rw [show (some t).or (List.find? (fun u => u.id = task1.id)
        [({ id := ses.pending.nextTaskId, agent_type := "search",
            task_type := "web_search", status := "pending",
            params := { query := some (task1.params.company_name.getD ""),
                        target_entity := some (task1.params.company_name.getD ""),
                        max_results := some 5 } } : AgentTask)]) = some t from rfl]
      dsimp only [Option.map]
      rw [if_pos htid]
      rw [if_pos (show ({ t with
          result := some (ResultVal.subTaskCreated ses.pending.nextTaskId) } : AgentTask).id
          = task1.id from htid)]

theorem routeAgent_ok_spec (env : Env) (ses : Session) (task : AgentTask) (s1 : Session)
    (h : routeAgent env ses task = Except.ok s1) :
    ∀ t, findTask ses.pending task.id = some t →
      ∃ t1, findTask s1.pending task.id = some t1 ∧ t1.error = t.error ∧
        (task.agent_type = "orchestration" →
          t1.status = "running" ∧ s1.committed = s1.pending) := by
  intro t hft
  unfold routeAgent at h
  by_cases h1 : task.agent_type = "orchestration"
  · rw [if_pos h1] at h
    by_cases h1t : task.task_type = "generate_full_profile"
    · rw [if_pos h1t] at h
      obtain ⟨hcp, hfind⟩ := handle_gfp_ok_find ses task s1 h
      exact ⟨_, hfind t hft, rfl, fun _ => ⟨rfl, hcp⟩⟩
    · rw [if_neg h1t] at h; cases h
  · rw [if_neg h1] at h
    by_cases h2 : task.agent_type = "data_ingestion"
    · rw [if_pos h2] at h
      unfold dataIngestion_process_task at h
      by_cases h2t : task.task_type = "process_csv"
      · rw [if_pos h2t] at h
        injection h with h5
        exact ⟨t, by rw [← h5]; exact hft, rfl, fun hc => absurd hc h1⟩
      · rw [if_neg h2t] at h
        by_cases h2u : task.task_type = "process_strategy"
        · rw [if_pos h2u] at h
          injection h with h5
          exact ⟨t, by rw [← h5]; exact hft, rfl, fun hc => absurd hc h1⟩
        · rw [if_neg h2u] at h; cases h
    · rw [if_neg h2] at h
      by_cases h3 : task.agent_type = "search"
      · rw [if_pos h3] at h
        unfold searchAgent_process_task at h
        by_cases h3t : task.task_type = "web_search"
        · rw [if_pos h3t] at h
          rcases hws : web_search env ses task.params with e0 | pr
          · rw [hws] at h; cases h
          · obtain ⟨s2, r⟩ := pr
            rw [hws] at h
            dsimp only at h
            injection h with h5
            have hts : s2.pending.tasks = ses.pending.tasks :=
              web_search_ok_tasks env ses task.params s2 r hws
            have hb : s2.pending.tasks.find? (fun u => u.id = task.id) = some t := by
              rw [hts]; exact hft
            have hfind := setTaskResult_find s2 task.id r t hb
            rw [h5] at hfind
            exact ⟨_, hfind, rfl, fun hc => absurd hc h1⟩
        · rw [if_neg h3t] at h; cases h
      · rw [if_neg h3] at h
        by_cases h4 : task.agent_type = "web_crawler"
        · rw [if_pos h4] at h
          unfold webCrawler_process_task at h
          by_cases h4t : task.task_type = "crawl_url"
          · rw [if_pos h4t] at h
            rcases hcr : crawl_url_playwright env task.params with e0 | r
            · rw [hcr] at h; cases h
            · rw [hcr] at h
              dsimp only at h
              by_cases hcnd : (r.statusGet = some "success" ∧
                  truthyN task.params.search_result_id = true)
              · rw [if_pos hcnd] at h
                injection h with h5
                have hfind := setTaskResult_find ses task.id r t hft
                rw [← update_srp_findTask_pending (setTaskResult ses task.id r)
                  (task.params.search_result_id.getD 0) true task.id, h5] at hfind
                exact ⟨_, hfind, rfl, fun hc => absurd hc h1⟩
              · rw [if_neg hcnd] at h
                injection h with h5
                have hfind := setTaskResult_find ses task.id r t hft
                rw [h5] at hfind
                exact ⟨_, hfind, rfl, fun hc => absurd hc h1⟩
          · rw [if_neg h4t] at h; cases h
        · rw [if_neg h4] at h
          by_cases h5a : task.agent_type = "information_extraction"
          · rw [if_pos h5a] at h
            unfold infoExtraction_process_task at h
            by_cases h5t : task.task_type = "extract_from_content"
            · rw [if_pos h5t] at h
              injection h with h5
              have hfind := setTaskResult_find ses task.id
                (extract_information_llm env task.params) t hft
              rw [h5] at hfind
              exact ⟨_, hfind, rfl, fun hc => absurd hc h1⟩
            · rw [if_neg h5t] at h; cases h
          · rw [if_neg h5a] at h
            by_cases h6 : task.agent_type = "analysis"
            · rw [if_pos h6] at h
              unfold analysisAgent_process_task at h
              by_cases h6t : task.task_type = "company_analysis"
              · rw [if_pos h6t] at h
                rcases han : analyze_companies ses task.params with e0 | pr
                · rw [han] at h; cases h
                · obtain ⟨s2, r⟩ := pr
                  rw [han] at h
                  dsimp only at h
                  injection h with h5
                  have hts : s2.pending.tasks = ses.pending.tasks :=
                    analyze_companies_ok_tasks ses task.params s2 r han
                  have hb : s2.pending.tasks.find? (fun u => u.id = task.id) = some t := by
                    rw [hts]; exact hft
                  have hfind := setTaskResult_find s2 task.id r t hb
                  rw [h5] at hfind
                  exact ⟨_, hfind, rfl, fun hc => absurd hc h1⟩
              · rw [if_neg h6t] at h; cases h
            · rw [if_neg h6] at h
              by_cases h7 : task.agent_type = "storage"
              · rw [if_pos h7] at h
                unfold storageAgent_process_task at h
                by_cases h7a : task.task_type = "store_extracted_data"
                · rw [if_pos h7a] at h
                  rcases hst : store_extracted_data ses task.params with e0 | pr
                  · rw [hst] at h; cases h
                  · obtain ⟨s2, r⟩ := pr
                    rw [hst] at h
                    dsimp only at h
                    injection h with h5
                    have hts : s2.pending.tasks = ses.pending.tasks :=
                      store_extracted_data_ok_tasks ses task.params s2 r hst
                    have hb : s2.pending.tasks.find? (fun u => u.id = task.id) = some t := by
                      rw [hts]; exact hft
                    have hfind := setTaskResult_find s2 task.id r t hb
                    rw [h5] at hfind
                    exact ⟨_, hfind, rfl, fun hc => absurd hc h1⟩
                · rw [if_neg h7a] at h
                  by_cases h7b : task.task_type = "store_company_overview"
                  · rw [if_pos h7b] at h
                    rcases hst : store_company_overview ses task.params with e0 | pr
                    · rw [hst] at h; cases h
                    · obtain ⟨s2, r⟩ := pr
                      rw [hst] at h
                      dsimp only at h
                      injection h with h5
                      have hts : s2.pending.tasks = ses.pending.tasks :=
                        store_company_overview_ok_tasks ses task.params s2 r hst
                      have hb : s2.pending.tasks.find? (fun u => u.id = task.id)
                          = some t := by
                        rw [hts]; exact hft
                      have hfind := setTaskResult_find s2 task.id r t hb
                      rw [h5] at hfind
                      exact ⟨_, hfind, rfl, fun hc => absurd hc h1⟩
                  · rw [if_neg h7b] at h
                    by_cases h7c : task.task_type = "store_company_links"
                    · rw [if_pos h7c] at h
                      rcases hst : store_company_links ses task.params with e0 | pr
                      · rw [hst] at h; cases h
                      · obtain ⟨s2, r⟩ := pr
                        rw [hst] at h
                        dsimp only at h
                        injection h with h5
                        have hts : s2.pending.tasks = ses.pending.tasks :=
                          store_company_links_ok_tasks ses task.params s2 r hst
                        have hb : s2.pending.tasks.find? (fun u => u.id = task.id)
                            = some t := by
                          rw [hts]; exact hft
                        have hfind := setTaskResult_find s2 task.id r t hb
                        rw [h5] at hfind
                        exact ⟨_, hfind, rfl, fun hc => absurd hc h1⟩
                    · rw [if_neg h7c] at h
                      by_cases h7d : task.task_type = "store_document_vectors"
                      · rw [if_pos h7d] at h
                        injection h with h5
                        have hfind := setTaskResult_find ses task.id
                          (ResultVal.storeVectorsOk
                            "Document vectors processed (placeholder).") t hft
                        rw [h5] at hfind
                        exact ⟨_, hfind, rfl, fun hc => absurd hc h1⟩
                      · rw [if_neg h7d] at h
                        by_cases h7e : task.task_type = "store_company_vectors"
                        · rw [if_pos h7e] at h
                          injection h with h5
                          have hfind := setTaskResult_find ses task.id
                            (ResultVal.storeVectorsOk
                              "Company vectors processed (placeholder).") t hft
                          rw [h5] at hfind
                          exact ⟨_, hfind, rfl, fun hc => absurd hc h1⟩
                        · rw [if_neg h7e] at h; cases h
              · rw [if_neg h7] at h; cases h

theorem routeAgent_error_spec (env : Env) (ses : Session) (task : AgentTask)
    (e : String) (sE : Session)
    (hcp : ses.committed = ses.pending)
    (h : routeAgent env ses task = Except.error (e, sE)) :
    ∀ t, findTask ses.pending task.id = some t →
      ∃ t1, findTask sE.committed task.id = some t1 ∧ t1.result = t.result := by
  intro t hft
  unfold routeAgent at h
  by_cases h1 : task.agent_type = "orchestration"
  · rw [if_pos h1] at h
    by_cases h1t : task.task_type = "generate_full_profile"
    · rw [if_pos h1t] at h
      unfold handle_generate_full_profile at h
      by_cases hg : (¬ truthyN task.params.company_id = true ∨
          ¬ truthyS task.params.company_name = true)
      · rw [if_pos hg] at h
        injection h with h5
        injection h5 with h6 h7
        refine ⟨t, ?_, rfl⟩
        rw [← h7]
        show findTask ses.committed task.id = some t
        rw [hcp]; exact hft
      · rw [if_neg hg] at h
        dsimp only at h
        by_cases hq : (ses.pending.searchQueries.find?
            (fun sq => sq.query_text = task.params.company_name.getD "")).isSome = true
        · rw [if_pos hq] at h; cases h
        · rw [if_neg hq] at h; cases h
    · rw [if_neg h1t] at h
      injection h with h5
      injection h5 with h6 h7
      refine ⟨t, ?_, rfl⟩
      rw [← h7, hcp]; exact hft
  · rw [if_neg h1] at h
    by_cases h2 : task.agent_type = "data_ingestion"
    · rw [if_pos h2] at h
      unfold dataIngestion_process_task at h
      by_cases h2t : task.task_type = "process_csv"
      · rw [if_pos h2t] at h; cases h
      · rw [if_neg h2t] at h
        by_cases h2u : task.task_type = "process_strategy"
        · rw [if_pos h2u] at h; cases h
        · rw [if_neg h2u] at h
          injection h with h5
          injection h5 with h6 h7
          refine ⟨t, ?_, rfl⟩
          rw [← h7, hcp]; exact hft
    · rw [if_neg h2] at h
      by_cases h3 : task.agent_type = "search"
      · rw [if_pos h3] at h
        unfold searchAgent_process_task at h
        by_cases h3t : task.task_type = "web_search"
        · rw [if_pos h3t] at h
          rcases hws : web_search env ses task.params with e0 | pr
          · rw [hws] at h
            dsimp only at h
            injection h with h5
            injection h5 with h6 h7
            refine ⟨t, ?_, rfl⟩
            rw [← h7]
            show findTask ses.committed task.id = some t
            rw [hcp]; exact hft
          · obtain ⟨s2, r⟩ := pr
            rw [hws] at h
            dsimp only at h
            cases h
        · rw [if_neg h3t] at h
          injection h with h5
          injection h5 with h6 h7
          refine ⟨t, ?_, rfl⟩
          rw [← h7, hcp]; exact hft
      · rw [if_neg h3] at h
        by_cases h4 : task.agent_type = "web_crawler"
        · rw [if_pos h4] at h
          unfold webCrawler_process_task at h
          by_cases h4t : task.task_type = "crawl_url"
          · rw [if_pos h4t] at h
            rcases hcr : crawl_url_playwright env task.params with e0 | r
            · rw [hcr] at h
              dsimp only at h
              injection h with h5
              injection h5 with h6 h7
              by_cases hcnd : truthyN task.params.search_result_id = true
              · rw [if_pos hcnd] at h7
                rw [← h7]
                rcases update_srp_findTask_committed
                    (setTaskError ses task.id ("Crawl failed: " ++ e0))
                    (task.params.search_result_id.getD 0) true task.id with hA | hB
                · rw [hA]
                  have hfind := findTask_modifyTask_self ses.pending task.id
                    (fun u => { u with error := some ("Crawl failed: " ++ e0) })
                    (fun _ => rfl) t hft
                  exact ⟨_, hfind, rfl⟩
                · rw [hB]
                  refine ⟨t, ?_, rfl⟩
                  show findTask ses.committed task.id = some t
                  rw [hcp]; exact hft
              · rw [if_neg hcnd] at h7
                rw [← h7]
                refine ⟨t, ?_, rfl⟩
                show findTask ses.committed task.id = some t
                rw [hcp]; exact hft
            · rw [hcr] at h
              dsimp only at h
              cases h
          · rw [if_neg h4t] at h
            injection h with h5
            injection h5 with h6 h7
            refine ⟨t, ?_, rfl⟩
            rw [← h7, hcp]; exact hft
        · rw [if_neg h4] at h
          by_cases h5a : task.agent_type = "information_extraction"
          · rw [if_pos h5a] at h
            unfold infoExtraction_process_task at h
            by_cases h5t : task.task_type = "extract_from_content"
            · rw [if_pos h5t] at h; cases h
            · rw [if_neg h5t] at h
              injection h with h5
              injection h5 with h6 h7
              refine ⟨t, ?_, rfl⟩
              rw [← h7, hcp]; exact hft
          · rw [if_neg h5a] at h
            by_cases h6 : task.agent_type = "analysis"
            · rw [if_pos h6] at h
              unfold analysisAgent_process_task at h
              by_cases h6t : task.task_type = "company_analysis"
              · rw [if_pos h6t] at h
                rcases han : analyze_companies ses task.params with e0 | pr
                · rw [han] at h
                  dsimp only at h
                  injection h with h5
                  injection h5 with h6b h7
                  refine ⟨t, ?_, rfl⟩
                  rw [← h7, hcp]; exact hft
                · obtain ⟨s2, r⟩ := pr
                  rw [han] at h
                  dsimp only at h
                  cases h
              · rw [if_neg h6t] at h
                injection h with h5
                injection h5 with h6b h7
                refine ⟨t, ?_, rfl⟩
                rw [← h7, hcp]; exact hft
            · rw [if_neg h6] at h
              by_cases h7x : task.agent_type = "storage"
              · rw [if_pos h7x] at h
                unfold storageAgent_process_task at h
                by_cases h7a : task.task_type = "store_extracted_data"
                · rw [if_pos h7a] at h
                  rcases hst : store_extracted_data ses task.params with e0 | pr
                  · rw [hst] at h
                    dsimp only at h
                    injection h with h5
                    injection h5 with h6b h7
                    refine ⟨t, ?_, rfl⟩
                    rw [← h7, hcp]; exact hft
                  · obtain ⟨s2, r⟩ := pr
                    rw [hst] at h
                    dsimp only at h
                    cases h
                · rw [if_neg h7a] at h
                  by_cases h7b : task.task_type = "store_company_overview"
                  · rw [if_pos h7b] at h
                    rcases hst : store_company_overview ses task.params with e0 | pr
                    · rw [hst] at h
                      dsimp only at h
                      injection h with h5
                      injection h5 with h6b h7
                      refine ⟨t, ?_, rfl⟩
                      rw [← h7, hcp]; exact hft
                    · obtain ⟨s2, r⟩ := pr
                      rw [hst] at h
                      dsimp only at h
                      cases h
                  · rw [if_neg h7b] at h
                    by_cases h7c : task.task_type = "store_company_links"
                    · rw [if_pos h7c] at h
                      rcases hst : store_company_links ses task.params with e0 | pr
                      · rw [hst] at h
                        dsimp only at h
                        injection h with h5
                        injection h5 with h6b h7
                        refine ⟨t, ?_, rfl⟩
                        rw [← h7, hcp]; exact hft
                      · obtain ⟨s2, r⟩ := pr
                        rw [hst] at h
                        dsimp only at h
                        cases h
                    · rw [if_neg h7c] at h
                      by_cases h7d : task.task_type = "store_document_vectors"
                      · rw [if_pos h7d] at h; cases h
                      · rw [if_neg h7d] at h
                        by_cases h7e : task.task_type = "store_company_vectors"
                        · rw [if_pos h7e] at h; cases h
                        · rw [if_neg h7e] at h
                          injection h with h5
                          injection h5 with h6b h7
                          refine ⟨t, ?_, rfl⟩
                          rw [← h7, hcp]; exact hft
              · rw [if_neg h7x] at h
                injection h with h5
                injection h5 with h6b h7
                refine ⟨t, ?_, rfl⟩
                rw [← h7, hcp]; exact hft

/-- C2: a task record that the dispatcher picks up fresh (non-terminal, no
    result, no error) satisfies the terminal-state invariants after one
    `process_task` run: reaching `completed` implies the result field is set
    and the error field is unset, reaching `failed` implies the error field
    is set, and the result and error fields are never both set — the
    orchestration meta-task stays `running` and is covered vacuously. -/
theorem C2_terminal_result_error_exclusive (env : Env) (now : Nat) (db : Store)
    (task_id : Nat) (task : AgentTask)
    (hf : findTask db task_id = some task)
    (hnc : task.status ≠ "completed") (hnf : task.status ≠ "failed")
    (hr : task.result = none) (he : task.error = none) :
    ∀ t1, findTask (process_task env now db task_id) task_id = some t1 →
      (t1.status = "completed" → t1.result.isSome = true ∧ t1.error = none) ∧
      (t1.status = "failed" → t1.error.isSome = true) ∧
      ¬ (t1.result.isSome = true ∧ t1.error.isSome = true) := by
  have hne : ¬ (task.status = "completed" ∨ task.status = "failed") := by
    intro hc
    rcases hc with hc | hc
    · exact hnc hc
    · exact hnf hc
  have htid : task.id = task_id := by simpa using List.find?_some hf
  unfold process_task
  rw [hf]
  dsimp only
  rw [if_neg hne]
  set T : AgentTask := { task with status := "running", started_at := some now } with hT
  set D1 : Store := modifyTask db task_id
    (fun t => { t with status := "running", started_at := some now }) with hD1
  have hfindt1 : findTask D1 task_id = some T := by
    rw [hD1, hT]
    exact findTask_modifyTask_self db task_id
      (fun t => { t with status := "running", started_at := some now })
      (fun _ => rfl) task hf
  have hfT : findTask (Session.mk D1 D1).pending T.id = some T := by
    show findTask D1 task.id = some T
    rw [htid]
    exact hfindt1
  rcases hroute : routeAgent env ⟨D1, D1⟩ T with ⟨e, sE⟩ | s1
  · -- the agent raised: rollback, reload and finalize `failed`
    dsimp only [Session.rollbackS]
    obtain ⟨t2, hft2, hres2⟩ := routeAgent_error_spec env ⟨D1, D1⟩ T e sE rfl hroute T hfT
    have hft2c : findTask sE.committed task_id = some t2 := by
      rw [← htid]
      exact hft2
    have hres0 : t2.result = none := by
      rw [hres2]
      exact hr
    rw [hft2c]
    dsimp only
    intro t1 hft1
    rw [findTask_modifyTask_self sE.committed task_id
      (fun t => { t with status := "failed", error := some e, completed_at := some now })
      (fun _ => rfl) t2 hft2c] at hft1
    injection hft1 with h9
    subst h9
    refine ⟨?_, ?_, ?_⟩
    · intro hcon
      have h11 : ("failed" : String) = "completed" := hcon
      exact absurd h11 (by decide)
    · intro _
      rfl
    · intro hcon
      have h10 : t2.result.isSome = true := hcon.1
      rw [hres0] at h10
      simp at h10
  · -- the agent returned normally
    dsimp only
    obtain ⟨t2, hft2, herr2, horch2⟩ := routeAgent_ok_spec env ⟨D1, D1⟩ T s1 hroute T hfT
    have hft2p : findTask s1.pending task_id = some t2 := by
      rw [← htid]
      exact hft2
    have herr0 : t2.error = none := by
      rw [herr2]
      exact he
    by_cases ho : T.agent_type = "orchestration"
    · rw [if_pos ho]
      obtain ⟨hst2, hcp2⟩ := horch2 ho
      intro t1 hft1
      rw [hcp2, hft2p] at hft1
      injection hft1 with h9
      subst h9
      refine ⟨?_, ?_, ?_⟩
      · intro hcon
        rw [hst2] at hcon
        exact absurd hcon (by decide)
      · intro hcon
        rw [hst2] at hcon
        exact absurd hcon (by decide)
      · intro hcon
        have h10 : t2.error.isSome = true := hcon.2
        rw [herr0] at h10
        simp at h10
    · rw [if_neg ho]
      rw [hft2p]
      dsimp only
      rcases hr2 : t2.result with _ | r0
      · intro t1 hft1
        rw [findTask_modifyTask_self s1.pending task_id
          (fun t =>
            { t with
              status := "completed",
              completed_at := some now,
              result := some (ResultVal.defaultSuccess T.agent_type T.task_type) })
          (fun _ => rfl) t2 hft2p] at hft1
        injection hft1 with h9
        subst h9
        refine ⟨?_, ?_, ?_⟩
        · intro _
          exact ⟨rfl, herr0⟩
        · intro hcon
          have h11 : ("completed" : String) = "failed" := hcon
          exact absurd h11 (by decide)
        · intro hcon
          have h10 : t2.error.isSome = true := hcon.2
          rw [herr0] at h10
          simp at h10
      · intro t1 hft1
        rw [findTask_modifyTask_self s1.pending task_id
          (fun t =>
            { t with
              status := "completed",
              completed_at := some now,
              result := some r0 })
          (fun _ => rfl) t2 hft2p] at hft1
        injection hft1 with h9
        subst h9
        refine ⟨?_, ?_, ?_⟩
        · intro _
          exact ⟨rfl, herr0⟩
        · intro hcon
          have h11 : ("completed" : String) = "failed" := hcon
          exact absurd h11 (by decide)
        · intro hcon
          have h10 : t2.error.isSome = true := hcon.2
          rw [herr0] at h10
          simp at h10

/-- Concrete fixtures for the C2 witness: a pending task routed to an
    unknown agent type, which the dispatcher finalizes as `failed`. -/
def C2task : AgentTask :=
  { id := 3, agent_type := "telemetry", task_type := "noop", status := "pending" }

def C2db : Store := { tasks := [C2task] }

def C2res : AgentTask :=
  { id := 3, agent_type := "telemetry", task_type := "noop", status := "failed",
    started_at := some 9, error := some "Unknown agent type: telemetry",
    completed_at := some 9 }

/-- Witness instantiating C2 on a concrete dispatcher run. -/
theorem C2_witness :
    (C2res.status = "completed" → C2res.result.isSome = true ∧ C2res.error = none) ∧
    (C2res.status = "failed" → C2res.error.isSome = true) ∧
    ¬ (C2res.result.isSome = true ∧ C2res.error.isSome = true) :=
  C2_terminal_result_error_exclusive {} 9 C2db 3 C2task rfl (by decide) (by decide)
    rfl rfl C2res (by rfl)

end ArbitageX

